import Mathlib

/-!
Verification development for the Agentic-Chatbot repository.

The Python sources under `src/` are shallowly embedded as executable Lean
definitions:

* `config.py`            → `mkSettings` over an environment `String → Option String`
* `src/memory.py`        → `make_thread_id` / `parse_thread_id`
* `src/schema_manager.py`→ `SchemaManager` with `update` / `describe` /
                           `save_to_file` / `load_from_file`
* `src/agents.py`        → the deterministic reply post-processing of
                           `verify_query`, `detect_complexity`,
                           `synthesize_answer`
* `src/graph.py`         → the LangGraph state machine as a fuelled step
                           interpreter over `GraphState`, parametrised by an
                           `Env` of external replies (LLM calls, DuckDB)

External boundaries (the LLM service, the DuckDB engine, the file system and
`datetime.now()`) are inputs to the embedded functions, so that every theorem
quantifies over their behaviour.  Python's `json` module is embedded
explicitly (`jsonLoads` / `jsonDumps`) because several claims are about texts
that do or do not parse as JSON.
-/

/-! ### Python-style string helpers -/

/-- Membership test of `needle` as a contiguous substring of `hay`
(Python's `in` operator on `str`). -/
def containsTok : List Char → List Char → Bool
  | [], needle => needle.isEmpty
  | c :: t, needle => needle.isPrefixOf (c :: t) || containsTok t needle

/-- Python `sub in s` for strings. -/
def strContains (s sub : String) : Bool := containsTok s.toList sub.toList

/-- Characters stripped by Python's `str.strip()` (ASCII whitespace). -/
def isPySpace (c : Char) : Bool :=
  c = ' ' || c = '\t' || c = '\n' || c = '\r' || c = '\x0b' || c = '\x0c'

def pyStripChars (cs : List Char) : List Char :=
  ((cs.dropWhile isPySpace).reverse.dropWhile isPySpace).reverse

/-- Python `str.strip()`. -/
def pyStrip (s : String) : String := String.mk (pyStripChars s.toList)

/-- Python `str.upper()` (ASCII behaviour). -/
def pyUpper (s : String) : String := String.mk (s.toList.map Char.toUpper)

/-- Python `str.lower()` (ASCII behaviour). -/
def pyLower (s : String) : String := String.mk (s.toList.map Char.toLower)

theorem String.mk_toList (s : String) : String.mk s.toList = s := rfl

/-! ### `config.py` — the `Settings` dataclass

`Settings` resolves each field from the environment with a default.  The
temperature field is passed through `float(...)`, which raises `ValueError`
on a malformed literal; constructing the embedded settings therefore returns
`Except`.  Since floating-point values themselves are irrelevant to the
claims, the temperature is kept as the raw (validated) literal text. -/

/-- Digit run `digit (["_"] digit)*` continuation: consumes further digits,
allowing a single underscore between digits (Python numeric literals). -/
def eatMoreDigits : List Char → List Char
  | '_' :: d :: rest => if d.isDigit then eatMoreDigits rest else '_' :: d :: rest
  | d :: rest => if d.isDigit then eatMoreDigits rest else d :: rest
  | [] => []

/-- Consume a Python `digitpart` (at least one digit, underscores allowed
between digits); `none` when the input does not start with a digit. -/
def eatDigits : List Char → Option (List Char)
  | c :: rest => if c.isDigit then some (eatMoreDigits rest) else none
  | [] => none

/-- Optional exponent suffix `("e"|"E") ["+"|"-"] digitpart` ending the input. -/
def pyExpOk : List Char → Bool
  | [] => true
  | e :: rest =>
    if e = 'e' || e = 'E' then
      let rest' := match rest with
        | s :: r => if s = '+' || s = '-' then r else s :: r
        | [] => []
      match eatDigits rest' with
      | some [] => true
      | _ => false
    else false

/-- Continuation after an integral digitpart: optional fraction, optional
exponent, end of input. -/
def pyAfterIntPart : List Char → Bool
  | [] => true
  | '.' :: rest =>
    (match eatDigits rest with
     | some r => pyExpOk r
     | none => pyExpOk rest)
  | cs => pyExpOk cs

/-- Unsigned numeric body of a Python `float(...)` literal. -/
def pyFloatNumeric (cs : List Char) : Bool :=
  match eatDigits cs with
  | some r => pyAfterIntPart r
  | none =>
    match cs with
    | '.' :: rest =>
      (match eatDigits rest with
       | some r => pyExpOk r
       | none => false)
    | _ => false

/-- Models acceptance of Python's `float(s)`: surrounding whitespace is
stripped, an optional sign is allowed, and the body is either a numeric
literal or (case-insensitively) `inf`, `infinity` or `nan`. -/
def pyFloatParses (s : String) : Bool :=
  let low := (pyStripChars s.toList).map Char.toLower
  let body := match low with
    | c :: rest => if c = '+' || c = '-' then rest else c :: rest
    | [] => []
  body = ['i', 'n', 'f'] || body = ['i', 'n', 'f', 'i', 'n', 'i', 't', 'y'] ||
    body = ['n', 'a', 'n'] || pyFloatNumeric body

/-- Embedding of the `Settings` dataclass fields (`config.py`). The
`agent_temperature` field holds the raw literal accepted by `float(...)`. -/
structure Settings where
  ollama_host : String
  supervisor_model : String
  coder_model : String
  agent_temperature : String
  data_dir : String
  duckdb_path : String
  schema_path : String
  memory_db_path : String
  use_postgres_memory : Bool
deriving Repr, DecidableEq

/-- Embedding of `Settings()` construction at process start (`config.py`
lines 17-54): each field is `os.getenv(var, default)`; the temperature is
passed through `float(...)` (raising on a malformed literal, hence
`.error`); the memory flag is `os.getenv(...).lower() == "true"`. -/
def mkSettings (env : String → Option String) : Except String Settings :=
  let tempRaw := (env "AGENT_TEMPERATURE").getD "0.1"
  if pyFloatParses tempRaw then
    .ok
      { ollama_host := (env "OLLAMA_HOST").getD "http://localhost:11434"
        supervisor_model := (env "OLLAMA_SUPERVISOR_MODEL").getD "ministral3:8b"
        coder_model := (env "OLLAMA_CODER_MODEL").getD "gpt-oss:120b-cloud"
        agent_temperature := tempRaw
        data_dir := (env "DATA_DIR").getD "./data"
        duckdb_path := (env "DUCKDB_PATH").getD "./duckdb.db"
        schema_path := (env "SCHEMA_PATH").getD "./schema.json"
        memory_db_path := (env "MEMORY_DB_PATH").getD "./memory.db"
        use_postgres_memory :=
          pyLower ((env "USE_POSTGRES_MEMORY").getD "false") == "true" }
  else
    .error ("could not convert string to float: " ++ tempRaw)

/-- The documented default settings (all environment variables unset). -/
def defaultSettings : Settings :=
  { ollama_host := "http://localhost:11434"
    supervisor_model := "ministral3:8b"
    coder_model := "gpt-oss:120b-cloud"
    agent_temperature := "0.1"
    data_dir := "./data"
    duckdb_path := "./duckdb.db"
    schema_path := "./schema.json"
    memory_db_path := "./memory.db"
    use_postgres_memory := false }

/-! ### `src/memory.py` — thread-id namespacing -/

/-- Embedding of `MemoryManager.make_thread_id` (memory.py lines 111-122). -/
def make_thread_id (user_id thread_id : String) : String :=
  user_id ++ "__" ++ thread_id

/-- One-shot split on the first occurrence of `sep` (Python
`s.split(sep, 1)`); `none` when `sep` does not occur. -/
def splitOnceAux (sep : List Char) : List Char → Option (List Char × List Char)
  | [] => none
  | c :: rest =>
    if sep.isPrefixOf (c :: rest) then some ([], (c :: rest).drop sep.length)
    else
      match splitOnceAux sep rest with
      | some (a, b) => some (c :: a, b)
      | none => none

/-- Embedding of `MemoryManager.parse_thread_id` (memory.py lines 124-137). -/
def parse_thread_id (namespaced_id : String) : String × String :=
  match splitOnceAux "__".toList namespaced_id.toList with
  | some (a, b) => (String.mk a, String.mk b)
  | none => ("unknown", namespaced_id)

/-- Test on the last character (used to state when the separator cannot
bleed into the user id). -/
def endsWithUnderscore (cs : List Char) : Bool :=
  match cs.getLast? with
  | some c => c = '_'
  | none => false

theorem splitOnceAux_clean (u t : List Char)
    (h1 : containsTok u ('_' :: '_' :: []) = false)
    (h2 : endsWithUnderscore u = false) :
    splitOnceAux ('_' :: '_' :: []) (u ++ '_' :: '_' :: t) = some (u, t) := by
  induction u with
  | nil => simp [splitOnceAux, List.isPrefixOf]
  | cons c u' ih =>
    have hnp : List.isPrefixOf ('_' :: '_' :: []) (c :: (u' ++ '_' :: '_' :: t)) = false := by
      cases u' with
      | nil =>
        have hc : ¬ c = '_' := by
          intro hc; subst hc
          simp [endsWithUnderscore] at h2
        have hc' : ('_' : Char) ≠ c := fun h => hc h.symm
        simp [List.isPrefixOf, hc']
      | cons d u'' =>
        by_cases hc : c = '_'
        · by_cases hd : d = '_'
          · subst hc; subst hd
            simp [containsTok, List.isPrefixOf] at h1
          · subst hc
            have hd' : ('_' : Char) ≠ d := fun h => hd h.symm
            simp [List.isPrefixOf, hd']
        · have hc' : ('_' : Char) ≠ c := fun h => hc h.symm
          simp [List.isPrefixOf, hc']
    have h1' : containsTok u' ('_' :: '_' :: []) = false := by
      simp [containsTok] at h1
      exact h1.2
    have h2' : endsWithUnderscore u' = false := by
      cases u' with
      | nil => rfl
      | cons d u'' =>
        simpa [endsWithUnderscore, List.getLast?] using h2
    simp [splitOnceAux, hnp, ih h1' h2']

/-- Round-trip of `make_thread_id` / `parse_thread_id` for user ids in which
the separator cannot occur (no `__` inside, no trailing `_`). -/
theorem parse_make_thread_id (u t : String)
    (h1 : strContains u "__" = false)
    (h2 : endsWithUnderscore u.toList = false) :
    parse_thread_id (make_thread_id u t) = (u, t) := by
  have hdata : (make_thread_id u t).toList = u.toList ++ '_' :: '_' :: t.toList := by
    show (u ++ "__" ++ t).data = _
    rw [String.data_append, String.data_append, List.append_assoc]
    rfl
  have h1' : containsTok u.toList ('_' :: '_' :: []) = false := h1
  unfold parse_thread_id
  rw [hdata]
  have hsep : ("__" : String).toList = ('_' :: '_' :: []) := rfl
  rw [hsep, splitOnceAux_clean u.toList t.toList h1' h2]
  simp [String.mk_toList]

/-! ### Python's `json` module — values, serialisation, parsing

`json.loads` / `json.dump` are embedded explicitly because several claims
quantify over texts that do or do not parse as JSON.  Numbers are kept as
their lexemes (no claim inspects a numeric value).  `jsonDumps` models
`json.dump(..., ensure_ascii=False)` with the indentation whitespace elided;
the grammar accepted by `jsonLoads` is whitespace-insensitive, so round-trip
behaviour is unaffected. -/

inductive Json where
  | null : Json
  | bool (b : Bool) : Json
  | num (lexeme : String) : Json
  | str (s : String) : Json
  | arr (elems : List Json) : Json
  | obj (members : List (String × Json)) : Json
deriving Repr, Inhabited

/-- Lower-case hexadecimal digit for `n < 16`. -/
def hexDig (n : Nat) : Char :=
  if n < 10 then Char.ofNat (48 + n) else Char.ofNat (87 + n)

/-- JSON string escaping of one character (double quote, backslash, the
short control escapes, `\u00xx` for other control characters; all other
characters pass through, as with `ensure_ascii=False`). -/
def escChar (c : Char) : List Char :=
  if c = '"' then ['\\', '"']
  else if c = '\\' then ['\\', '\\']
  else if c = '\n' then ['\\', 'n']
  else if c = '\r' then ['\\', 'r']
  else if c = '\t' then ['\\', 't']
  else if c = '\x08' then ['\\', 'b']
  else if c = '\x0c' then ['\\', 'f']
  else if c.toNat < 32 then ['\\', 'u', '0', '0', hexDig (c.toNat / 16), hexDig (c.toNat % 16)]
  else [c]

def escapeChars : List Char → List Char
  | [] => []
  | c :: rest => escChar c ++ escapeChars rest

/-- Serialise a JSON string literal. -/
def printStr (s : String) : List Char := '"' :: (escapeChars s.toList ++ ['"'])

mutual

def printJson : Json → List Char
  | .null => "null".toList
  | .bool true => "true".toList
  | .bool false => "false".toList
  | .num lx => lx.toList
  | .str s => printStr s
  | .arr es => '[' :: (printElems es ++ [']'])
  | .obj ms => '{' :: (printMembers ms ++ ['}'])

def printElems : List Json → List Char
  | [] => []
  | [e] => printJson e
  | e :: es => printJson e ++ ',' :: printElems es

def printMembers : List (String × Json) → List Char
  | [] => []
  | [(k, v)] => printStr k ++ ':' :: printJson v
  | (k, v) :: ms => printStr k ++ ':' :: printJson v ++ ',' :: printMembers ms

end

/-- Embedding of `json.dumps` (whitespace elided, `ensure_ascii=False`). -/
def jsonDumps (j : Json) : String := String.mk (printJson j)

/-- Hexadecimal digit value. -/
def hexVal (c : Char) : Option Nat :=
  if 48 ≤ c.toNat ∧ c.toNat ≤ 57 then some (c.toNat - 48)
  else if 97 ≤ c.toNat ∧ c.toNat ≤ 102 then some (c.toNat - 87)
  else if 65 ≤ c.toNat ∧ c.toNat ≤ 70 then some (c.toNat - 55)
  else none

/-- Single-character JSON escapes. -/
def unescSimple (e : Char) : Option Char :=
  if e = '"' then some '"'
  else if e = '\\' then some '\\'
  else if e = '/' then some '/'
  else if e = 'b' then some '\x08'
  else if e = 'f' then some '\x0c'
  else if e = 'n' then some '\n'
  else if e = 'r' then some '\r'
  else if e = 't' then some '\t'
  else none

/-- Read the body of a JSON string literal (input starts just after the
opening quote); returns the decoded characters and the remaining input. -/
def pStrChars : List Char → Except String (List Char × List Char)
  | [] => .error "unterminated string"
  | c :: rest =>
    if c = '"' then .ok ([], rest)
    else if c = '\\' then
      match rest with
      | 'u' :: h1 :: h2 :: h3 :: h4 :: rest3 =>
        match hexVal h1, hexVal h2, hexVal h3, hexVal h4 with
        | some a, some b, some c2, some d =>
          (pStrChars rest3).map fun (cs, r) =>
            (Char.ofNat (4096 * a + 256 * b + 16 * c2 + d) :: cs, r)
        | _, _, _, _ => .error "invalid unicode escape"
      | e :: rest2 =>
        match unescSimple e with
        | some c' => (pStrChars rest2).map fun (cs, r) => (c' :: cs, r)
        | none => .error "invalid escape"
      | [] => .error "unterminated string"
    else (pStrChars rest).map fun (cs, r) => (c :: cs, r)

/-- Longest digit run at the front of the input. -/
def takeDigits : List Char → (List Char × List Char)
  | [] => ([], [])
  | c :: rest =>
    if c.isDigit then
      let (ds, r) := takeDigits rest
      (c :: ds, r)
    else ([], c :: rest)

/-- Optional fraction part of a JSON number. -/
def pFrac : List Char → Option (List Char × List Char)
  | '.' :: r =>
    (match takeDigits r with
     | ([], _) => none
     | (ds, rest) => some ('.' :: ds, rest))
  | cs => some ([], cs)

/-- Optional exponent part of a JSON number. -/
def pExp : List Char → Option (List Char × List Char)
  | c :: r =>
    if c = 'e' || c = 'E' then
      let (sgn, r2) := match r with
        | s :: rr => if s = '+' || s = '-' then ([s], rr) else (([] : List Char), s :: rr)
        | [] => ([], [])
      match takeDigits r2 with
      | ([], _) => none
      | (ds, rest) => some (c :: (sgn ++ ds), rest)
    else some ([], c :: r)
  | [] => some ([], [])

/-- Lex a JSON number, keeping the lexeme. -/
def pNum (cs : List Char) : Except String (Json × List Char) :=
  let (sign, cs1) := match cs with
    | '-' :: r => ((['-'] : List Char), r)
    | _ => ([], cs)
  match takeDigits cs1 with
  | ([], _) => .error "Expecting value"
  | (ds, cs2) =>
    match pFrac cs2 with
    | none => .error "Expecting value"
    | some (frac, cs3) =>
      match pExp cs3 with
      | none => .error "Expecting value"
      | some (ex, cs4) => .ok (Json.num (String.mk (sign ++ ds ++ frac ++ ex)), cs4)

def isJsonWs (c : Char) : Bool := c = ' ' || c = '\t' || c = '\n' || c = '\r'

def skipWs (cs : List Char) : List Char := cs.dropWhile isJsonWs

/-- Match a keyword tail and produce the given value. -/
def expectLit (lit : List Char) (cs : List Char) (v : Json) : Except String (Json × List Char) :=
  if lit.isPrefixOf cs then .ok (v, cs.drop lit.length) else .error "Expecting value"

mutual

def pVal : Nat → List Char → Except String (Json × List Char)
  | 0, _ => .error "fuel exhausted"
  | fuel + 1, cs0 =>
    match skipWs cs0 with
    | [] => .error "Expecting value"
    | c :: rest =>
      if c = 'n' then expectLit ['u', 'l', 'l'] rest Json.null
      else if c = 't' then expectLit ['r', 'u', 'e'] rest (Json.bool true)
      else if c = 'f' then expectLit ['a', 'l', 's', 'e'] rest (Json.bool false)
      else if c = '"' then (pStrChars rest).map fun (s, r) => (Json.str (String.mk s), r)
      else if c = '[' then
        let cs2 := skipWs rest
        if cs2.head? = some ']' then .ok (Json.arr [], cs2.tail)
        else (pElems fuel cs2).map fun (es, r) => (Json.arr es, r)
      else if c = '{' then
        let cs2 := skipWs rest
        if cs2.head? = some '}' then .ok (Json.obj [], cs2.tail)
        else (pMembers fuel cs2).map fun (ms, r) => (Json.obj ms, r)
      else if c = '-' || c.isDigit then pNum (c :: rest)
      else .error "Expecting value"

def pElems : Nat → List Char → Except String (List Json × List Char)
  | 0, _ => .error "fuel exhausted"
  | fuel + 1, cs =>
    (pVal fuel cs).bind fun (v, r) =>
      let r' := skipWs r
      if r'.head? = some ',' then
        (pElems fuel r'.tail).map fun (es, r3) => (v :: es, r3)
      else if r'.head? = some ']' then .ok ([v], r'.tail)
      else .error "expected comma or closing bracket"

def pMembers : Nat → List Char → Except String (List (String × Json) × List Char)
  | 0, _ => .error "fuel exhausted"
  | fuel + 1, cs =>
    let cs' := skipWs cs
    if cs'.head? = some '"' then
      (pStrChars cs'.tail).bind fun (k, r1) =>
        let r1' := skipWs r1
        if r1'.head? = some ':' then
          (pVal fuel r1'.tail).bind fun (v, r3) =>
            let r3' := skipWs r3
            if r3'.head? = some ',' then
              (pMembers fuel r3'.tail).map fun (ms, r5) => ((String.mk k, v) :: ms, r5)
            else if r3'.head? = some '}' then .ok ([(String.mk k, v)], r3'.tail)
            else .error "expected comma or closing brace"
        else .error "expected colon"
    else .error "expecting property name"

end

/-- Embedding of `json.loads`: parse one JSON value, then require only
whitespace to remain. -/
def jsonLoads (s : String) : Except String Json := do
  let (v, rest) ← pVal (s.length + 1) s.toList
  match skipWs rest with
  | [] => .ok v
  | _ => .error "Extra data"

/-- Key lookup in a parsed JSON object, later duplicate keys winning, as in
the `dict` that Python's `json.loads` builds. -/
def jLookup (ms : List (String × Json)) (k : String) : Option Json :=
  match ms with
  | [] => none
  | (k', v) :: rest =>
    match jLookup rest k with
    | some v' => some v'
    | none => if k' = k then some v else none

/-! ### `src/agents.py` — deterministic reply post-processing

The LLM call itself is an external boundary; what the repository defines is
the deterministic cleanup of the reply text (markdown fence stripping,
control-character sanitisation, `json.loads`, and the fail-open /
fail-closed fallback dictionaries).  Those are embedded here. -/

def pyStartsWith (s pre : String) : Bool := pre.toList.isPrefixOf s.toList

def pyEndsWith (s suf : String) : Bool := suf.toList.isSuffixOf s.toList

/-- Python slice `s[n:]`. -/
def pyDrop (s : String) (n : Nat) : String := String.mk (s.toList.drop n)

/-- Python slice `s[:-n]`. -/
def pyDropRight (s : String) (n : Nat) : String :=
  String.mk (s.toList.take (s.toList.length - n))

/-- Markdown code-fence stripping shared by `verify_query` and
`detect_complexity` (agents.py lines 196-202 and 312-318): three sequential
conditional slices on the running value. -/
def stripFences (content : String) : String :=
  let content := if pyStartsWith content "```json" then pyDrop content 7 else content
  let content := if pyStartsWith content "```" then pyDrop content 3 else content
  let content := if pyEndsWith content "```" then pyDropRight content 3 else content
  content

/-- Text actually handed to `json.loads` by `SupervisorAgent.verify_query`
(agents.py lines 194-205): the reply is stripped, fences removed, stripped
again. -/
def verify_query_clean (reply : String) : String :=
  pyStrip (stripFences (pyStrip reply))

/-- Embedding of the result of `SupervisorAgent.verify_query` as a function
of the LLM reply text (agents.py lines 193-208): the parsed JSON on
success, and on any parse failure the fail-open dictionary
`valid=True, feedback="Verification failed: <error>"`. -/
def verify_query_result (reply : String) : Json :=
  match jsonLoads (verify_query_clean reply) with
  | .ok j => j
  | .error e =>
    Json.obj [("valid", Json.bool true),
              ("feedback", Json.str ("Verification failed: " ++ e))]

/-- Replacement of the control characters `\x00-\x1f` and `\x7f-\x9f` by
spaces (agents.py line 322). -/
def ctrlToSpace (c : Char) : Char :=
  if c.toNat ≤ 31 || (127 ≤ c.toNat && c.toNat ≤ 159) then ' ' else c

/-- Text actually handed to `json.loads` by
`SupervisorAgent.detect_complexity` (agents.py lines 310-324). -/
def detect_complexity_clean (reply : String) : String :=
  String.mk ((pyStrip (stripFences (pyStrip reply))).toList.map ctrlToSpace)

/-- Python `d[k] = v` on a dict: replace in place or append. -/
def pySetItem (ms : List (String × Json)) (k : String) (v : Json) : List (String × Json) :=
  if (ms.map Prod.fst).contains k then
    ms.map (fun kv => if kv.1 = k then (kv.1, v) else kv)
  else ms ++ [(k, v)]

/-- The fail-closed fallback dictionary of `detect_complexity`
(agents.py lines 329-336). -/
def complexityFallback (question msg : String) : Json :=
  Json.obj [("is_complex", Json.bool false),
            ("sub_questions", Json.arr []),
            ("original_question", Json.str question),
            ("reasoning", Json.str ("Failed to analyze complexity: " ++ msg))]

/-- Embedding of the result of `SupervisorAgent.detect_complexity` as a
function of the question and LLM reply text (agents.py lines 258-336).  On
a successful parse to an object, `original_question` is inserted; a parse
to a non-object raises `TypeError` at the item assignment, which the
`except` also turns into the fallback. -/
def detect_complexity_result (question reply : String) : Json :=
  match jsonLoads (detect_complexity_clean reply) with
  | .ok (Json.obj ms) => Json.obj (pySetItem ms "original_question" (Json.str question))
  | .ok _ => complexityFallback question "item assignment on non-object reply"
  | .error e => complexityFallback question e

/-- Rows produced by `db.query`: dictionaries, with values modelled as
their textual rendering (no claim inspects a value beyond printing it). -/
abbrev Row := List (String × String)

/-- Python `repr` of a string value (quote wrapping; escaping of special
characters inside values is not modelled — no claim depends on it). -/
def pyReprStr (s : String) : String := "\x27" ++ s ++ "\x27"

/-- Python `str` of one result dictionary. -/
def pyReprRow (r : Row) : String :=
  "\x7b" ++ String.intercalate ", " (r.map fun kv => pyReprStr kv.1 ++ ": " ++ pyReprStr kv.2) ++ "\x7d"

/-- Python `str` of a list of result dictionaries. -/
def pyReprRows (rs : List Row) : String :=
  "[" ++ String.intercalate ", " (rs.map pyReprRow) ++ "]"

/-- Embedding of the `results_str` computation in
`SupervisorAgent.synthesize_answer` (agents.py lines 229-232):
`str(results[:50])`, plus the truncation note when more than 50 rows
exist. -/
def synthesize_results_str (results : List Row) : String :=
  let results_str := pyReprRows (results.take 50)
  if results.length > 50 then
    results_str ++ "\n... (showing first 50 of " ++ toString results.length ++ " rows)"
  else results_str

/-- The prompt text of `synthesize_answer` before the results section
(agents.py lines 235-244). -/
def synthPromptPre (question query schema_info : String) : String :=
  "Schema information:\n" ++ schema_info ++ "\n\nUser question: " ++ question ++
  "\n\nSQL query executed:\n" ++ query ++ "\n\nQuery results:\n"

/-- The prompt text of `synthesize_answer` after the results section
(agents.py lines 246-247). -/
def synthPromptPost : String :=
  "\n\nBased on these results, provide a clear, thorough, and precise answer to the user\x27s question. \nInclude specific numbers, trends, and insights from the data. If the results are empty, explain why."

/-- Embedding of the user prompt built by `SupervisorAgent.synthesize_answer`
(agents.py lines 235-247). -/
def synthesize_prompt (question query schema_info : String) (results : List Row) : String :=
  synthPromptPre question query schema_info ++ synthesize_results_str results ++ synthPromptPost

theorem isPrefixOf_append_self (l r : List Char) : l.isPrefixOf (l ++ r) = true := by
  induction l with
  | nil => simp [List.isPrefixOf]
  | cons c t ih => simp [List.isPrefixOf, ih]

theorem pyStartsWith_append (pre rest : String) :
    pyStartsWith (pre ++ rest) pre = true := by
  unfold pyStartsWith
  show pre.toList.isPrefixOf (pre ++ rest).data = true
  rw [String.data_append]
  exact isPrefixOf_append_self _ _

/-- C4: for every LLM reply text that does not parse as JSON (after fence
stripping, and for complexity detection also control-character
sanitisation), semantic query verification returns `valid=true` with
feedback beginning `"Verification failed:"` (fail-open), and complexity
detection returns `is_complex=false` with an empty sub-question list, the
original question preserved, and reasoning beginning
`"Failed to analyze complexity:"` (fail-closed); both embeddings are total
functions, so neither path raises. -/
theorem claim_C4 (reply question e e' : String) :
    (jsonLoads (verify_query_clean reply) = .error e →
      verify_query_result reply =
        Json.obj [("valid", Json.bool true),
                  ("feedback", Json.str ("Verification failed: " ++ e))]
      ∧ pyStartsWith ("Verification failed: " ++ e) "Verification failed:" = true)
  ∧ (jsonLoads (detect_complexity_clean reply) = .error e' →
      detect_complexity_result question reply =
        Json.obj [("is_complex", Json.bool false),
                  ("sub_questions", Json.arr []),
                  ("original_question", Json.str question),
                  ("reasoning", Json.str ("Failed to analyze complexity: " ++ e'))]
      ∧ pyStartsWith ("Failed to analyze complexity: " ++ e') "Failed to analyze complexity:" = true) := by
  constructor
  · intro h
    refine ⟨?_, ?_⟩
    · unfold verify_query_result
      rw [h]
    · have hlit : ("Verification failed:" ++ " " : String) = "Verification failed: " := by rfl
      rw [← hlit, String.append_assoc]
      exact pyStartsWith_append _ _
  · intro h
    refine ⟨?_, ?_⟩
    · unfold detect_complexity_result
      rw [h]
      rfl
    · have hlit : ("Failed to analyze complexity:" ++ " " : String) = "Failed to analyze complexity: " := by rfl
      rw [← hlit, String.append_assoc]
      exact pyStartsWith_append _ _

/-- C4 witness: the concrete non-JSON reply `"not json"` takes both
fallback paths. -/
theorem claim_C4_witness :
    verify_query_result "not json" =
        Json.obj [("valid", Json.bool true),
                  ("feedback", Json.str ("Verification failed: " ++ "Expecting value"))]
  ∧ detect_complexity_result "Q" "not json" =
        Json.obj [("is_complex", Json.bool false),
                  ("sub_questions", Json.arr []),
                  ("original_question", Json.str "Q"),
                  ("reasoning", Json.str ("Failed to analyze complexity: " ++ "Expecting value"))] := by
  have h := claim_C4 "not json" "Q" "Expecting value" "Expecting value"
  exact ⟨(h.1 (by rfl)).1, (h.2 (by rfl)).1⟩

/-- C6 (amended): for result lists with more than 50 rows the prompt payload
contains the rendering of exactly the first 50 rows followed by the note
`"... (showing first 50 of <total> rows)"` — the note states the total row
count, from which the omitted count follows, but does not state the omitted
count itself — and for lists of at most 50 rows all rows are rendered with
no note appended. -/
theorem claim_C6 (question query schema_info : String) (results : List Row) :
    (results.length > 50 →
      synthesize_results_str results =
        pyReprRows (results.take 50) ++
          ("\n... (showing first 50 of " ++ toString results.length ++ " rows)")
      ∧ (results.take 50).length = 50)
  ∧ (results.length ≤ 50 →
      synthesize_results_str results = pyReprRows results)
  ∧ synthesize_prompt question query schema_info results =
      synthPromptPre question query schema_info ++
        synthesize_results_str results ++ synthPromptPost := by
  refine ⟨?_, ?_, rfl⟩
  · intro h
    constructor
    · unfold synthesize_results_str
      rw [if_pos h]
      simp [String.append_assoc]
    · simp [List.length_take]
      omega
  · intro h
    unfold synthesize_results_str
    rw [if_neg (by omega), List.take_of_length_le h]

/-- C6 witness: instantiation at a 75-row result list and at a 10-row
result list. -/
theorem claim_C6_witness :
    (synthesize_results_str (List.replicate 75 ([] : Row)) =
        pyReprRows ((List.replicate 75 ([] : Row)).take 50) ++
          ("\n... (showing first 50 of " ++ toString (List.replicate 75 ([] : Row)).length ++ " rows)")
      ∧ ((List.replicate 75 ([] : Row)).take 50).length = 50)
  ∧ synthesize_results_str (List.replicate 10 ([] : Row)) =
      pyReprRows (List.replicate 10 ([] : Row)) := by
  constructor
  · exact (claim_C6 "q" "sql" "schema" (List.replicate 75 [])).1 (by simp)
  · exact (claim_C6 "q" "sql" "schema" (List.replicate 10 [])).2.1 (by simp)

set_option maxRecDepth 16384 in
/-- C6 counterexample: for 75 rows the appended note is exactly
`"\n... (showing first 50 of 75 rows)"`; it does not contain the text
`"25"`, so it does not state how many rows were omitted. -/
theorem claim_C6_cex :
    synthesize_results_str (List.replicate 75 ([] : Row)) =
      pyReprRows (List.replicate 50 ([] : Row)) ++ "\n... (showing first 50 of 75 rows)"
  ∧ strContains (synthesize_results_str (List.replicate 75 ([] : Row))) "25" = false := by
  constructor
  · rfl
  · rfl

/-! ### `src/schema_manager.py` — the schema registry

Python dictionaries are modelled as insertion-ordered association lists
(as `dict` preserves insertion order); Python sets of column names are
modelled canonically as lexicographically sorted duplicate-free lists
(every write site sorts, membership and `sorted(list(...))` agree with the
set semantics). -/

/-- Embedding of the `ColumnInfo` TypedDict.  `none` models a missing key
(the loader always writes all three keys; hand-written snapshot files may
omit some). -/
structure ColumnInfo where
  name : String
  type : Option String
  description : Option String
deriving Repr, DecidableEq

/-- Registry state: the `_schemas` dict and the `_shared_columns` set. -/
structure SchemaManager where
  _schemas : List (String × List ColumnInfo)
  _shared_columns : List String
deriving Repr, DecidableEq

/-- Strict code-point lexicographic order on strings (Python `<` on `str`,
used by `sorted`). -/
def lexLt : List Char → List Char → Bool
  | [], [] => false
  | [], _ :: _ => true
  | _ :: _, [] => false
  | a :: as, b :: bs =>
    if a.toNat < b.toNat then true
    else if b.toNat < a.toNat then false
    else lexLt as bs

def strLtB (a b : String) : Bool := lexLt a.toList b.toList

/-- Stable insertion of `x` before the first element not strictly below it. -/
def insertByKey {α : Type} (key : α → String) (x : α) : List α → List α
  | [] => [x]
  | y :: ys => if strLtB (key y) (key x) then y :: insertByKey key x ys else x :: y :: ys

/-- Python `sorted(...)` by a string key (stable, ascending). -/
def sortByKey {α : Type} (key : α → String) (l : List α) : List α :=
  l.foldr (insertByKey key) []

/-- Duplicate removal keeping first occurrences. -/
def dedupAux (seen : List String) : List String → List String
  | [] => []
  | x :: xs => if seen.contains x then dedupAux seen xs else x :: dedupAux (x :: seen) xs

def dedupFirst (l : List String) : List String := dedupAux [] l

/-- Python `sorted(list(set(l)))`: duplicate-free, lexicographically sorted. -/
def pySortedSet (l : List String) : List String := sortByKey id (dedupFirst l)

/-- Python `d[k] = v` / `dict.update` entry: replace in place or append. -/
def dictSet (base : List (String × List ColumnInfo)) (k : String) (v : List ColumnInfo) :
    List (String × List ColumnInfo) :=
  if (base.map Prod.fst).contains k then
    base.map (fun kv => if kv.1 = k then (kv.1, v) else kv)
  else base ++ [(k, v)]

/-- Python `base.update(upd)` on dicts. -/
def dictUpdate (base upd : List (String × List ColumnInfo)) : List (String × List ColumnInfo) :=
  upd.foldl (fun acc kv => dictSet acc kv.1 kv.2) base

/-- Dict lookup (unique keys; `[]` for a missing table, as in
`get_columns`). -/
def dictGet (base : List (String × List ColumnInfo)) (k : String) : List ColumnInfo :=
  match base.find? (fun kv => kv.1 = k) with
  | some kv => kv.2
  | none => []

/-- Every column-name occurrence across all tables (with multiplicity), in
iteration order — the stream the `Counter` of `_detect_relationships`
consumes. -/
def allColumnNames (schemas : List (String × List ColumnInfo)) : List String :=
  schemas.flatMap (fun t => t.2.map ColumnInfo.name)

/-- Embedding of `SchemaManager._detect_relationships` (schema_manager.py
lines 56-78): the set of column names whose occurrence count exceeds 1
(canonical sorted representation). -/
def detectSharedColumns (schemas : List (String × List ColumnInfo)) : List String :=
  let names := allColumnNames schemas
  pySortedSet (names.filter (fun n => 1 < names.count n))

/-- Embedding of `SchemaManager.update` (schema_manager.py lines 46-54). -/
def SchemaManager.update (m : SchemaManager) (schemas : List (String × List ColumnInfo)) :
    SchemaManager :=
  let s := dictUpdate m._schemas schemas
  { _schemas := s, _shared_columns := detectSharedColumns s }

/-- Unordered pairs `(i, j)` with `i` before `j` in the given list. -/
def allPairs : List String → List (String × String)
  | [] => []
  | x :: xs => xs.map (fun y => (x, y)) ++ allPairs xs

/-- Sorted list of column names common to two column lists
(`sorted(list(cols_a & cols_b))`). -/
def sharedBetween (cols_a cols_b : List ColumnInfo) : List String :=
  let na := cols_a.map ColumnInfo.name
  let nb := cols_b.map ColumnInfo.name
  pySortedSet (na.filter (fun n => nb.contains n))

/-- Relationship lines of `SchemaManager._build_relationship_map`
(schema_manager.py lines 93-112). -/
def buildRelationshipLines (schemas : List (String × List ColumnInfo)) : List String :=
  let table_names := sortByKey id (schemas.map Prod.fst)
  (allPairs table_names).filterMap (fun ab =>
    let common := sharedBetween (dictGet schemas ab.1) (dictGet schemas ab.2)
    if common.isEmpty then none
    else some ("- " ++ ab.1 ++ " and " ++ ab.2 ++ " are linked by: " ++
      String.intercalate ", " common))

/-- Embedding of `SchemaManager._build_relationship_map` (schema_manager.py
lines 80-117). -/
def SchemaManager.build_relationship_map (m : SchemaManager) : String :=
  if m._schemas.isEmpty || m._schemas.length < 2 then ""
  else
    let relationships := buildRelationshipLines m._schemas
    if relationships.isEmpty then ""
    else "\n\nDetected Relationships:\n" ++ String.intercalate "\n" relationships

/-- Rendering of one column in `describe` (schema_manager.py lines
150-164). -/
def renderColumn (shared : List String) (col : ColumnInfo) : String :=
  let dtype := col.type.getD "UNKNOWN"
  let desc := col.description.getD ""
  let shared_tag := if shared.contains col.name then " [SHARED KEY]" else ""
  let col_str := col.name ++ " (" ++ dtype ++ ")" ++ shared_tag
  if desc.isEmpty then col_str else col_str ++ ": " ++ desc

/-- Rendering of one table in `describe` (schema_manager.py lines
144-171). -/
def renderTable (shared : List String) (t : String × List ColumnInfo) : String :=
  t.1 ++ " (" ++ String.intercalate ", " (t.2.map (renderColumn shared)) ++ ")"

/-- Embedding of `SchemaManager.describe` (schema_manager.py lines
119-179). -/
def SchemaManager.describe (m : SchemaManager) : String :=
  if m._schemas.isEmpty then "No tables loaded."
  else
    String.intercalate "; " ((sortByKey Prod.fst m._schemas).map (renderTable m._shared_columns)) ++
      m.build_relationship_map

/-! File-level persistence.  The file system is a map from paths to file
texts; `datetime.now().isoformat()` is the `generated_at` parameter. -/

abbrev FS := String → Option String

def encodeOptStr : Option String → Json
  | some s => Json.str s
  | none => Json.null

def encodeColumn (c : ColumnInfo) : Json :=
  Json.obj [("name", Json.str c.name), ("type", encodeOptStr c.type),
            ("description", encodeOptStr c.description)]

def encodeColumns (cols : List ColumnInfo) : Json := Json.arr (cols.map encodeColumn)

def encodeTables (schemas : List (String × List ColumnInfo)) : Json :=
  Json.obj (schemas.map (fun t => (t.1, encodeColumns t.2)))

def encodeStrArr (l : List String) : Json := Json.arr (l.map Json.str)

/-- Relationship records built by `save_to_file` (schema_manager.py lines
224-242). -/
def relationshipRecords (schemas : List (String × List ColumnInfo)) :
    List (String × String × List String) :=
  let table_names := sortByKey id (schemas.map Prod.fst)
  (allPairs table_names).filterMap (fun ab =>
    let common := sharedBetween (dictGet schemas ab.1) (dictGet schemas ab.2)
    if common.isEmpty then none else some (ab.1, ab.2, common))

def encodeRel (r : String × String × List String) : Json :=
  Json.obj [("table_a", Json.str r.1), ("table_b", Json.str r.2.1),
            ("shared_columns", encodeStrArr r.2.2)]

/-- The JSON document written by `save_to_file` (schema_manager.py lines
244-250). -/
def snapshotJson (m : SchemaManager) (generated_at : String) : Json :=
  Json.obj [("tables", encodeTables m._schemas),
            ("relationships", Json.arr ((relationshipRecords m._schemas).map encodeRel)),
            ("shared_columns", encodeStrArr (pySortedSet m._shared_columns)),
            ("generated_at", Json.str generated_at)]

/-- Embedding of `SchemaManager.save_to_file` (schema_manager.py lines
211-258): writes the snapshot text at `path` (directory creation and the
log line have no observable effect in this model). -/
def SchemaManager.save_to_file (m : SchemaManager) (fs : FS) (path generated_at : String) : FS :=
  fun p => if p = path then some (jsonDumps (snapshotJson m generated_at)) else fs p

def decodeColumn : Json → Option ColumnInfo
  | Json.obj ms =>
    match jLookup ms "name" with
    | some (Json.str n) =>
      let ty : Option (Option String) :=
        match jLookup ms "type" with
        | some (Json.str t) => some (some t)
        | some Json.null => some none
        | none => some none
        | _ => none
      let ds : Option (Option String) :=
        match jLookup ms "description" with
        | some (Json.str d) => some (some d)
        | some Json.null => some none
        | none => some none
        | _ => none
      match ty, ds with
      | some t, some d => some { name := n, type := t, description := d }
      | _, _ => none
    | _ => none
  | _ => none

def decodeColumnList : List Json → Option (List ColumnInfo)
  | [] => some []
  | j :: js =>
    match decodeColumn j, decodeColumnList js with
    | some c, some cs => some (c :: cs)
    | _, _ => none

def decodeColumns : Json → Option (List ColumnInfo)
  | Json.arr es => decodeColumnList es
  | _ => none

def decodeTableList : List (String × Json) → Option (List (String × List ColumnInfo))
  | [] => some []
  | kv :: rest =>
    match decodeColumns kv.2, decodeTableList rest with
    | some cols, some tbls => some ((kv.1, cols) :: tbls)
    | _, _ => none

def decodeTables : Json → Option (List (String × List ColumnInfo))
  | Json.obj ms => decodeTableList ms
  | _ => none

def decodeStrs : List Json → Option (List String)
  | [] => some []
  | Json.str s :: js =>
    match decodeStrs js with
    | some ss => some (s :: ss)
    | none => none
  | _ => none

def decodeStrList : Json → Option (List String)
  | Json.arr es => decodeStrs es
  | _ => none

/-- Embedding of `SchemaManager.load_from_file` (schema_manager.py lines
260-290).  `some (m', flag)` is the Python return; the result is `none`
when the Python code would leave this typed model: its `except` clause
catches only `JSONDecodeError` and `KeyError`, so a top-level non-object
raises `AttributeError` at `data.get`, and a present `tables` /
`shared_columns` value of unexpected shape would be stored untyped. -/
def SchemaManager.load_from_file (m : SchemaManager) (fs : FS) (path : String) :
    Option (SchemaManager × Bool) :=
  match fs path with
  | none => some (m, false)
  | some txt =>
    match jsonLoads txt with
    | .error _ => some (m, false)
    | .ok (Json.obj ms) =>
      let tablesJ := (jLookup ms "tables").getD (Json.obj [])
      let sharedJ := (jLookup ms "shared_columns").getD (Json.arr [])
      match decodeTables tablesJ, decodeStrList sharedJ with
      | some tbls, some sh =>
        some ({ _schemas := tbls, _shared_columns := pySortedSet sh }, true)
      | _, _ => none
    | .ok _ => none

/-! ### Claim C5 — the textual schema description -/

theorem contains_eq_decide_mem (l : List String) (x : String) :
    l.contains x = decide (x ∈ l) :=
  List.elem_eq_mem x l

theorem mem_dedupAux (l : List String) :
    ∀ (seen : List String) (x : String), x ∈ dedupAux seen l ↔ x ∈ l ∧ x ∉ seen := by
  induction l with
  | nil => intro seen x; simp [dedupAux]
  | cons y ys ih =>
    intro seen x
    unfold dedupAux
    by_cases h : seen.contains y
    · rw [if_pos h]
      rw [ih seen x]
      have hy : y ∈ seen := by
        rw [contains_eq_decide_mem] at h
        exact of_decide_eq_true h
      constructor
      · rintro ⟨hx, hns⟩
        exact ⟨List.mem_cons_of_mem _ hx, hns⟩
      · rintro ⟨hx, hns⟩
        rcases List.mem_cons.mp hx with rfl | hx'
        · exact absurd hy hns
        · exact ⟨hx', hns⟩
    · rw [if_neg h]
      constructor
      · intro hx
        rcases List.mem_cons.mp hx with rfl | hx'
        · refine ⟨List.mem_cons_self _ _, ?_⟩
          rw [contains_eq_decide_mem] at h
          exact fun hs => h (decide_eq_true hs)
        · rw [ih (y :: seen) x] at hx'
          exact ⟨List.mem_cons_of_mem _ hx'.1, fun hs => hx'.2 (List.mem_cons_of_mem _ hs)⟩
      · rintro ⟨hx, hns⟩
        rcases List.mem_cons.mp hx with rfl | hx'
        · exact List.mem_cons_self _ _
        · by_cases hxy : x = y
          · subst hxy; exact List.mem_cons_self _ _
          · refine List.mem_cons_of_mem _ ?_
            rw [ih (y :: seen) x]
            exact ⟨hx', fun hs => by
              rcases List.mem_cons.mp hs with h' | h'
              · exact hxy h'
              · exact hns h'⟩

theorem mem_dedupFirst (l : List String) (x : String) : x ∈ dedupFirst l ↔ x ∈ l := by
  unfold dedupFirst
  rw [mem_dedupAux]
  simp

theorem mem_insertByKey {α : Type} (key : α → String) (x y : α) (l : List α) :
    y ∈ insertByKey key x l ↔ y = x ∨ y ∈ l := by
  induction l with
  | nil => simp [insertByKey]
  | cons z zs ih =>
    unfold insertByKey
    by_cases h : strLtB (key z) (key x)
    · rw [if_pos h]
      simp only [List.mem_cons, ih]
      tauto
    · rw [if_neg h]
      simp only [List.mem_cons]

theorem mem_sortByKey {α : Type} (key : α → String) (y : α) (l : List α) :
    y ∈ sortByKey key l ↔ y ∈ l := by
  induction l with
  | nil => simp [sortByKey]
  | cons z zs ih =>
    show y ∈ insertByKey key z (sortByKey key zs) ↔ _
    rw [mem_insertByKey, ih]
    simp

theorem contains_pySortedSet (l : List String) (x : String) :
    (pySortedSet l).contains x = l.contains x := by
  have h1 : x ∈ pySortedSet l ↔ x ∈ l := by
    unfold pySortedSet
    rw [mem_sortByKey, mem_dedupFirst]
  rw [contains_eq_decide_mem, contains_eq_decide_mem]
  simp only [h1]

theorem contains_filter_count (names : List String) (x : String) :
    (names.filter (fun n => 1 < names.count n)).contains x =
      decide (1 < names.count x) := by
  rw [contains_eq_decide_mem]
  have h1 : x ∈ names.filter (fun n => 1 < names.count n) ↔ 1 < names.count x := by
    constructor
    · intro hx
      have := (List.mem_filter.mp hx).2
      exact of_decide_eq_true this
    · intro hc
      refine List.mem_filter.mpr ⟨?_, by simpa using hc⟩
      have : 0 < names.count x := by omega
      exact List.count_pos_iff.mp this
  simp only [h1]

/-- C5 reference rendering of one column, transcribed from the (amended)
claim wording: the `[SHARED KEY]` tag appears iff the column name occurs
more than once across all tables' column lists (multiplicity counted, so a
duplicate inside a single table also triggers it); the type label defaults
to `UNKNOWN` when absent; the description suffix is omitted when absent. -/
def specRenderColumn (names : List String) (col : ColumnInfo) : String :=
  let dtype := col.type.getD "UNKNOWN"
  let desc := col.description.getD ""
  let shared_tag := if 1 < names.count col.name then " [SHARED KEY]" else ""
  let col_str := col.name ++ " (" ++ dtype ++ ")" ++ shared_tag
  if desc.isEmpty then col_str else col_str ++ ": " ++ desc

/-- C5 reference rendering of one table. -/
def specRenderTable (names : List String) (t : String × List ColumnInfo) : String :=
  t.1 ++ " (" ++ String.intercalate ", " (t.2.map (specRenderColumn names)) ++ ")"

/-- C5 reference relationship lines: one `- A and B are linked by: ...`
line per unordered pair of tables (lexicographic table order) whose
column-name intersection is non-empty, shared columns sorted
lexicographically. -/
def specRelLines (schemas : List (String × List ColumnInfo)) : List String :=
  (allPairs (sortByKey id (schemas.map Prod.fst))).filterMap (fun ab =>
    let common := pySortedSet
      (((dictGet schemas ab.1).map ColumnInfo.name).filter
        (fun n => ((dictGet schemas ab.2).map ColumnInfo.name).contains n))
    if common.isEmpty then none
    else some ("- " ++ ab.1 ++ " and " ++ ab.2 ++ " are linked by: " ++
      String.intercalate ", " common))

/-- C5 reference description: the literal `"No tables loaded."` for an
empty registry; otherwise the tables in lexicographic order joined by
`"; "`, followed by the Detected Relationships section, which is omitted
when no pair of tables shares a column. -/
def describe_spec (m : SchemaManager) : String :=
  if m._schemas.isEmpty then "No tables loaded."
  else
    String.intercalate "; "
        ((sortByKey Prod.fst m._schemas).map (specRenderTable (allColumnNames m._schemas))) ++
      (if (specRelLines m._schemas).isEmpty then ""
       else "\n\nDetected Relationships:\n" ++
         String.intercalate "\n" (specRelLines m._schemas))

theorem specRelLines_eq (schemas : List (String × List ColumnInfo)) :
    specRelLines schemas = buildRelationshipLines schemas := rfl

theorem relmap_eq (m : SchemaManager) :
    m.build_relationship_map =
      (if (buildRelationshipLines m._schemas).isEmpty then ""
       else "\n\nDetected Relationships:\n" ++
         String.intercalate "\n" (buildRelationshipLines m._schemas)) := by
  unfold SchemaManager.build_relationship_map
  rcases hm : m._schemas with _ | ⟨t, ts⟩
  · rfl
  · rcases ts with _ | ⟨t2, r⟩
    · rfl
    · simp [buildRelationshipLines]

/-- C5 (amended): for every registry state whose shared-column set is the
one derived from its table mapping (as every `update` / snapshot reload
establishes), `describe` renders exactly the reference text: tables in
lexicographic order; a column tagged `[SHARED KEY]` iff its name occurs
more than once across all tables' column lists (multiplicity counted, so a
duplicated name inside one table also triggers the tag); type label
`UNKNOWN` when the type is absent; description suffix omitted when absent;
a Detected Relationships section with one line per unordered table pair
sharing a column (shared columns sorted), omitted when no pair shares a
column; and exactly the literal `"No tables loaded."` for an empty
registry. -/
theorem claim_C5 (m : SchemaManager)
    (hsh : m._shared_columns = detectSharedColumns m._schemas) :
    m.describe = describe_spec m := by
  have hc : ∀ n, m._shared_columns.contains n =
      decide (1 < (allColumnNames m._schemas).count n) := by
    intro n
    rw [hsh]
    unfold detectSharedColumns
    rw [contains_pySortedSet, contains_filter_count]
  have hcol : renderColumn m._shared_columns = specRenderColumn (allColumnNames m._schemas) := by
    funext col
    unfold renderColumn specRenderColumn
    rw [hc col.name]
    simp only [decide_eq_true_eq]
  have htab : renderTable m._shared_columns = specRenderTable (allColumnNames m._schemas) := by
    funext t
    unfold renderTable specRenderTable
    rw [hcol]
  unfold SchemaManager.describe describe_spec
  rw [htab, relmap_eq, specRelLines_eq]

/-- C5 witness: the registry holding the spec's example tables `requests`
and `trip_forms`; its description tags `trip_form_id` as a shared key in
both tables and carries exactly one relationship line. -/
def exampleManager : SchemaManager :=
  SchemaManager.update ⟨[], []⟩
    [("requests", [⟨"id", some "INTEGER", none⟩, ⟨"trip_form_id", some "INTEGER", none⟩]),
     ("trip_forms", [⟨"trip_form_id", some "INTEGER", none⟩,
                     ⟨"profile_segment", some "STRING", some "user segment"⟩])]

theorem claim_C5_witness :
    exampleManager.describe = describe_spec exampleManager
  ∧ exampleManager.describe =
      "requests (id (INTEGER), trip_form_id (INTEGER) [SHARED KEY]); trip_forms (trip_form_id (INTEGER) [SHARED KEY], profile_segment (STRING): user segment)\n\nDetected Relationships:\n- requests and trip_forms are linked by: trip_form_id"
  ∧ (⟨[], []⟩ : SchemaManager).describe = "No tables loaded." :=
  ⟨claim_C5 exampleManager (by rfl), by rfl, by rfl⟩

/-- C5 counterexample: a registry whose single table lists the column `a`
twice.  The name occurs in only one table's column list, yet `describe`
tags it `[SHARED KEY]`, so the claimed tagging condition ("iff its name
occurs in more than one table's column list") is false as stated. -/
def dupColumnManager : SchemaManager :=
  SchemaManager.update ⟨[], []⟩
    [("t", [⟨"a", some "INT", none⟩, ⟨"a", some "INT", none⟩])]

theorem claim_C5_cex :
    (dupColumnManager._schemas.filter
        (fun kv => (kv.2.map ColumnInfo.name).contains "a")).length = 1
  ∧ dupColumnManager.describe = "t (a (INT) [SHARED KEY], a (INT) [SHARED KEY])" := by
  exact ⟨by rfl, by rfl⟩

/-! ### Claim C7 — `load_from_file` failure behaviour -/

/-- C7 (amended): `load_from_file` returns failure without raising when
the file is absent; when the file is present but its text is malformed
JSON it returns failure and leaves the registry unchanged; but when the
file holds a well-formed JSON object missing the expected keys it returns
success and resets the table mapping and shared-column set to empty
defaults instead of failing (atomicity does not extend to the missing-key
case). -/
theorem claim_C7 (m : SchemaManager) (fs : FS) (path : String) :
    (fs path = none → m.load_from_file fs path = some (m, false))
  ∧ (∀ txt e, fs path = some txt → jsonLoads txt = .error e →
      m.load_from_file fs path = some (m, false))
  ∧ (∀ txt ms, fs path = some txt → jsonLoads txt = .ok (Json.obj ms) →
      jLookup ms "tables" = none → jLookup ms "shared_columns" = none →
      m.load_from_file fs path = some (⟨[], []⟩, true)) := by
  refine ⟨?_, ?_, ?_⟩
  · intro h
    unfold SchemaManager.load_from_file
    rw [h]
  · intro txt e hfs hjson
    unfold SchemaManager.load_from_file
    rw [hfs]
    simp only [hjson]
  · intro txt ms hfs hjson htables hshared
    unfold SchemaManager.load_from_file
    rw [hfs]
    simp only [hjson, htables, hshared]
    rfl

def fsAbsent : FS := fun _ => none

def fsBadJson : FS := fun p => if p = "schema.json" then some "not json" else none

/-- The file system holding the file text `"{}"` (a well-formed JSON
object with no keys) at `schema.json`. -/
def fsEmptyObject : FS := fun p => if p = "schema.json" then some "\x7b\x7d" else none

/-- C7 witness: the three branches at concrete inputs — an absent file, a
malformed-JSON file, and a well-formed object file missing the expected
keys. -/
theorem claim_C7_witness :
    SchemaManager.load_from_file exampleManager fsAbsent "schema.json" =
      some (exampleManager, false)
  ∧ SchemaManager.load_from_file exampleManager fsBadJson "schema.json" =
      some (exampleManager, false)
  ∧ SchemaManager.load_from_file exampleManager fsEmptyObject "schema.json" =
      some (⟨[], []⟩, true) :=
  ⟨(claim_C7 exampleManager fsAbsent "schema.json").1 rfl,
   (claim_C7 exampleManager fsBadJson "schema.json").2.1 "not json" "Expecting value" rfl (by rfl),
   (claim_C7 exampleManager fsEmptyObject "schema.json").2.2 "\x7b\x7d" [] rfl (by rfl) rfl rfl⟩

/-- C7 counterexample: loading a present file holding the structurally
invalid snapshot `"{}"` (missing both expected keys) does not return
failure with the registry unchanged — it returns success and replaces the
non-empty registry by the empty one. -/
theorem claim_C7_cex :
    SchemaManager.load_from_file exampleManager fsEmptyObject "schema.json" =
      some (⟨[], []⟩, true)
  ∧ (⟨[], []⟩ : SchemaManager) ≠ exampleManager := by
  refine ⟨by rfl, by decide⟩

/-! ### Claim C8 — snapshot round-trip

`save_to_file` writes `jsonDumps (snapshotJson m ts)`; `load_from_file`
parses the text back with `jsonLoads` and decodes.  The generic
parse/print round-trip is proved for number-free JSON values (the
snapshot contains none). -/

mutual

def numFree : Json → Bool
  | .null => true
  | .bool _ => true
  | .num _ => false
  | .str _ => true
  | .arr es => numFreeList es
  | .obj ms => numFreeMembers ms

def numFreeList : List Json → Bool
  | [] => true
  | e :: es => numFree e && numFreeList es

def numFreeMembers : List (String × Json) → Bool
  | [] => true
  | kv :: ms => numFree kv.2 && numFreeMembers ms

end

mutual

def jsize : Json → Nat
  | .null => 1
  | .bool _ => 1
  | .num _ => 1
  | .str _ => 1
  | .arr es => jsizeList es + 1
  | .obj ms => jsizeMembers ms + 1

def jsizeList : List Json → Nat
  | [] => 0
  | e :: es => jsize e + jsizeList es + 1

def jsizeMembers : List (String × Json) → Nat
  | [] => 0
  | kv :: ms => jsize kv.2 + jsizeMembers ms + 1

end

theorem hexVal_hexDig : ∀ n : Nat, n < 16 → hexVal (hexDig n) = some n := by decide

theorem pStrChars_unicode (ha hb : Char) (a b : Nat) (tail : List Char)
    (hva : hexVal ha = some a) (hvb : hexVal hb = some b) :
    pStrChars ('\\' :: 'u' :: '0' :: '0' :: ha :: hb :: tail) =
      (pStrChars tail).map (fun x => (Char.ofNat (16 * a + b) :: x.1, x.2)) := by
  have h0 : hexVal '0' = some 0 := by decide
  simp [pStrChars, h0, hva, hvb]

theorem pStrChars_escape : ∀ (s rest : List Char),
    pStrChars (escapeChars s ++ '"' :: rest) = .ok (s, rest) := by
  intro s
  induction s with
  | nil =>
    intro rest
    show pStrChars ('"' :: rest) = _
    rw [pStrChars.eq_def]
    rfl
  | cons c cs ih =>
    intro rest
    show pStrChars ((escChar c ++ escapeChars cs) ++ '"' :: rest) = _
    rw [List.append_assoc]
    unfold escChar
    by_cases h1 : c = '"'
    · subst h1; simp [pStrChars, unescSimple, Except.map, ih rest]
    · rw [if_neg h1]
      by_cases h2 : c = '\\'
      · subst h2; simp [pStrChars, unescSimple, Except.map, ih rest]
      · rw [if_neg h2]
        by_cases h3 : c = '\n'
        · subst h3; simp [pStrChars, unescSimple, Except.map, ih rest]
        · rw [if_neg h3]
          by_cases h4 : c = '\r'
          · subst h4; simp [pStrChars, unescSimple, Except.map, ih rest]
          · rw [if_neg h4]
            by_cases h5 : c = '\t'
            · subst h5; simp [pStrChars, unescSimple, Except.map, ih rest]
            · rw [if_neg h5]
              by_cases h6 : c = '\x08'
              · subst h6; simp [pStrChars, unescSimple, Except.map, ih rest]
              · rw [if_neg h6]
                by_cases h7 : c = '\x0c'
                · subst h7; simp [pStrChars, unescSimple, Except.map, ih rest]
                · rw [if_neg h7]
                  by_cases h8 : c.toNat < 32
                  · rw [if_pos h8]
                    have hdiv : c.toNat / 16 < 16 := by omega
                    have hmod : c.toNat % 16 < 16 := by omega
                    simp only [List.cons_append, List.nil_append]
                    rw [pStrChars_unicode _ _ _ _ _
                        (hexVal_hexDig _ hdiv) (hexVal_hexDig _ hmod), ih rest]
                    have harith : 16 * (c.toNat / 16) + c.toNat % 16 = c.toNat := by omega
                    simp [Except.map, harith, Char.ofNat_toNat]
                  · rw [if_neg h8]
                    show pStrChars (c :: (escapeChars cs ++ '"' :: rest)) = _
                    rw [pStrChars.eq_def]
                    simp [h1, h2, Except.map, ih rest]

@[simp] theorem printJson_null : printJson Json.null = ['n', 'u', 'l', 'l'] := by
  rw [printJson.eq_def]; rfl

@[simp] theorem printJson_true : printJson (Json.bool true) = ['t', 'r', 'u', 'e'] := by
  rw [printJson.eq_def]; rfl

@[simp] theorem printJson_false : printJson (Json.bool false) = ['f', 'a', 'l', 's', 'e'] := by
  rw [printJson.eq_def]; rfl

@[simp] theorem printJson_str (s : String) : printJson (Json.str s) = printStr s := by
  rw [printJson.eq_def]

@[simp] theorem printJson_arr (es : List Json) :
    printJson (Json.arr es) = '[' :: (printElems es ++ [']']) := by
  rw [printJson.eq_def]

@[simp] theorem printJson_obj (ms : List (String × Json)) :
    printJson (Json.obj ms) = '{' :: (printMembers ms ++ ['}']) := by
  rw [printJson.eq_def]

@[simp] theorem printElems_nil : printElems [] = [] := by
  rw [printElems.eq_def]

@[simp] theorem printElems_single (e : Json) : printElems [e] = printJson e := by
  rw [printElems.eq_def]

theorem printElems_cons (e e2 : Json) (t : List Json) :
    printElems (e :: e2 :: t) = printJson e ++ ',' :: printElems (e2 :: t) := by
  rw [printElems.eq_def]

@[simp] theorem printMembers_nil : printMembers [] = [] := by
  rw [printMembers.eq_def]

theorem printMembers_single (k : String) (v : Json) :
    printMembers [(k, v)] = printStr k ++ ':' :: printJson v := by
  rw [printMembers.eq_def]

theorem printMembers_cons (k : String) (v : Json) (kv2 : String × Json)
    (t : List (String × Json)) :
    printMembers ((k, v) :: kv2 :: t) =
      printStr k ++ ':' :: printJson v ++ ',' :: printMembers (kv2 :: t) := by
  rw [printMembers.eq_def]

@[simp] theorem numFree_null : numFree Json.null = true := by rw [numFree.eq_def]

@[simp] theorem numFree_bool (b : Bool) : numFree (Json.bool b) = true := by rw [numFree.eq_def]

@[simp] theorem numFree_num (lx : String) : numFree (Json.num lx) = false := by rw [numFree.eq_def]

@[simp] theorem numFree_str (s : String) : numFree (Json.str s) = true := by rw [numFree.eq_def]

@[simp] theorem numFree_arr (es : List Json) : numFree (Json.arr es) = numFreeList es := by
  rw [numFree.eq_def]

@[simp] theorem numFree_obj (ms : List (String × Json)) :
    numFree (Json.obj ms) = numFreeMembers ms := by
  rw [numFree.eq_def]

@[simp] theorem numFreeList_nil : numFreeList [] = true := by rw [numFreeList.eq_def]

@[simp] theorem numFreeList_cons (e : Json) (es : List Json) :
    numFreeList (e :: es) = (numFree e && numFreeList es) := by
  rw [numFreeList.eq_def]

@[simp] theorem numFreeMembers_nil : numFreeMembers [] = true := by rw [numFreeMembers.eq_def]

@[simp] theorem numFreeMembers_cons (kv : String × Json) (ms : List (String × Json)) :
    numFreeMembers (kv :: ms) = (numFree kv.2 && numFreeMembers ms) := by
  rw [numFreeMembers.eq_def]

@[simp] theorem jsize_null : jsize Json.null = 1 := by rw [jsize.eq_def]

@[simp] theorem jsize_bool (b : Bool) : jsize (Json.bool b) = 1 := by rw [jsize.eq_def]

@[simp] theorem jsize_num (lx : String) : jsize (Json.num lx) = 1 := by rw [jsize.eq_def]

@[simp] theorem jsize_str (s : String) : jsize (Json.str s) = 1 := by rw [jsize.eq_def]

@[simp] theorem jsize_arr (es : List Json) : jsize (Json.arr es) = jsizeList es + 1 := by
  rw [jsize.eq_def]

@[simp] theorem jsize_obj (ms : List (String × Json)) :
    jsize (Json.obj ms) = jsizeMembers ms + 1 := by
  rw [jsize.eq_def]

@[simp] theorem jsizeList_nil : jsizeList [] = 0 := by rw [jsizeList.eq_def]

@[simp] theorem jsizeList_cons (e : Json) (es : List Json) :
    jsizeList (e :: es) = jsize e + jsizeList es + 1 := by
  rw [jsizeList.eq_def]

@[simp] theorem jsizeMembers_nil : jsizeMembers [] = 0 := by rw [jsizeMembers.eq_def]

@[simp] theorem jsizeMembers_cons (kv : String × Json) (ms : List (String × Json)) :
    jsizeMembers (kv :: ms) = jsize kv.2 + jsizeMembers ms + 1 := by
  rw [jsizeMembers.eq_def]

@[simp] theorem skipWs_cons_of_not_ws (c : Char) (l : List Char) (h : isJsonWs c = false) :
    skipWs (c :: l) = c :: l := by
  simp [skipWs, List.dropWhile_cons, h]

theorem printStr_eq (s : String) :
    printStr s = '"' :: (escapeChars s.toList ++ ['"']) := rfl

theorem printJson_head (v : Json) (h : numFree v = true) :
    ∃ c cs, printJson v = c :: cs ∧ isJsonWs c = false ∧ c ≠ ']' ∧ c ≠ '}' := by
  cases v with
  | null => exact ⟨'n', ['u', 'l', 'l'], by simp, by decide, by decide, by decide⟩
  | bool b =>
    cases b with
    | false => exact ⟨'f', ['a', 'l', 's', 'e'], by simp, by decide, by decide, by decide⟩
    | true => exact ⟨'t', ['r', 'u', 'e'], by simp, by decide, by decide, by decide⟩
  | num lx => simp at h
  | str s =>
    exact ⟨'"', escapeChars s.toList ++ ['"'], by simp [printStr_eq], by decide, by decide,
      by decide⟩
  | arr es => exact ⟨'[', printElems es ++ [']'], by simp, by decide, by decide, by decide⟩
  | obj ms => exact ⟨'{', printMembers ms ++ ['}'], by simp, by decide, by decide, by decide⟩

theorem skipWs_print (v : Json) (h : numFree v = true) (l : List Char) :
    skipWs (printJson v ++ l) = printJson v ++ l := by
  obtain ⟨c, cs, heq, hws, -, -⟩ := printJson_head v h
  rw [heq]
  simp [hws]

theorem head?_print_ne (v : Json) (h : numFree v = true) (l : List Char) (d : Char)
    (hd : d = ']' ∨ d = '}') :
    ¬ ((printJson v ++ l).head? = some d) := by
  obtain ⟨c, cs, heq, -, hrb, hcb⟩ := printJson_head v h
  rw [heq]
  intro contra
  simp at contra
  rcases hd with rfl | rfl
  · exact hrb contra
  · exact hcb contra

theorem skipWs_printElems (e : Json) (t : List Json) (h : numFree e = true) (l : List Char) :
    skipWs (printElems (e :: t) ++ l) = printElems (e :: t) ++ l := by
  cases t with
  | nil =>
    rw [printElems_single]
    exact skipWs_print e h l
  | cons e2 t2 =>
    rw [printElems_cons, List.append_assoc]
    exact skipWs_print e h _

theorem head?_printElems_ne (e : Json) (t : List Json) (h : numFree e = true) (l : List Char) :
    ¬ ((printElems (e :: t) ++ l).head? = some ']') := by
  cases t with
  | nil =>
    rw [printElems_single]
    exact head?_print_ne e h l ']' (Or.inl rfl)
  | cons e2 t2 =>
    rw [printElems_cons, List.append_assoc]
    exact head?_print_ne e h _ ']' (Or.inl rfl)

theorem skipWs_printMembers (kv : String × Json) (t : List (String × Json)) (l : List Char) :
    skipWs (printMembers (kv :: t) ++ l) = printMembers (kv :: t) ++ l := by
  rcases kv with ⟨k, v⟩
  cases t with
  | nil =>
    rw [printMembers_single, printStr_eq]
    simp [isJsonWs]
  | cons kv2 t2 =>
    rw [printMembers_cons, printStr_eq]
    simp [isJsonWs]

theorem head?_printMembers_ne (kv : String × Json) (t : List (String × Json)) (l : List Char) :
    ¬ ((printMembers (kv :: t) ++ l).head? = some '}') := by
  rcases kv with ⟨k, v⟩
  cases t with
  | nil =>
    rw [printMembers_single, printStr_eq]
    simp
  | cons kv2 t2 =>
    rw [printMembers_cons, printStr_eq]
    simp

/-- Round-trip property of one JSON value. -/
def RoundVal (v : Json) : Prop :=
  ∀ fuel rest, numFree v = true → jsize v ≤ fuel →
    pVal fuel (printJson v ++ rest) = .ok (v, rest)

/-- Round-trip property of a non-empty array-body. -/
def RoundElems (es : List Json) : Prop :=
  ∀ fuel rest, numFreeList es = true → es ≠ [] → jsizeList es ≤ fuel →
    pElems fuel (printElems es ++ ']' :: rest) = .ok (es, rest)

/-- Round-trip property of a non-empty object-body. -/
def RoundMembers (ms : List (String × Json)) : Prop :=
  ∀ fuel rest, numFreeMembers ms = true → ms ≠ [] → jsizeMembers ms ≤ fuel →
    pMembers fuel (printMembers ms ++ '}' :: rest) = .ok (ms, rest)

theorem round_null : RoundVal Json.null := by
  intro fuel rest _ hsz
  cases fuel with
  | zero => simp at hsz
  | succ f =>
    rw [pVal.eq_def]
    simp [skipWs_cons_of_not_ws, expectLit, List.isPrefixOf, isJsonWs]

theorem round_bool (b : Bool) : RoundVal (Json.bool b) := by
  intro fuel rest _ hsz
  cases fuel with
  | zero => simp at hsz
  | succ f =>
    cases b with
    | false =>
      rw [pVal.eq_def]
      simp [skipWs_cons_of_not_ws, expectLit, List.isPrefixOf, isJsonWs]
    | true =>
      rw [pVal.eq_def]
      simp [skipWs_cons_of_not_ws, expectLit, List.isPrefixOf, isJsonWs]

theorem round_num (lx : String) : RoundVal (Json.num lx) := by
  intro fuel rest hnf _
  simp at hnf

theorem round_str (s : String) : RoundVal (Json.str s) := by
  intro fuel rest _ hsz
  cases fuel with
  | zero => simp at hsz
  | succ f =>
    rw [pVal.eq_def]
    rw [printJson_str, printStr_eq]
    simp only [List.cons_append, List.append_assoc, List.singleton_append]
    rw [skipWs_cons_of_not_ws _ _ (by decide)]
    simp [pStrChars_escape, Except.map, String.mk_toList]

theorem pVal_lbracket (f : Nat) (X : List Char) :
    pVal (f + 1) ('[' :: X) =
      (if (skipWs X).head? = some ']' then .ok (Json.arr [], (skipWs X).tail)
       else (pElems f (skipWs X)).map fun (es, r) => (Json.arr es, r)) := rfl

theorem pVal_lbrace (f : Nat) (X : List Char) :
    pVal (f + 1) ('{' :: X) =
      (if (skipWs X).head? = some '}' then .ok (Json.obj [], (skipWs X).tail)
       else (pMembers f (skipWs X)).map fun (ms, r) => (Json.obj ms, r)) := rfl

theorem round_arr (es : List Json) (ih : RoundElems es) : RoundVal (Json.arr es) := by
  intro fuel rest hnf hsz
  cases fuel with
  | zero => simp at hsz
  | succ f =>
    rw [printJson_arr]
    simp only [List.cons_append]
    rw [pVal_lbracket]
    cases es with
    | nil =>
      simp only [printElems_nil, List.nil_append, List.singleton_append]
      rw [skipWs_cons_of_not_ws _ _ (by decide)]
      simp
    | cons e tail =>
      have hnfl : numFreeList (e :: tail) = true := by
        rw [numFree_arr] at hnf
        exact hnf
      have hnfe : numFree e = true := by
        simp at hnfl
        exact hnfl.1
      simp only [List.append_assoc, List.singleton_append]
      rw [skipWs_printElems e tail hnfe (']' :: rest)]
      rw [if_neg (head?_printElems_ne e tail hnfe (']' :: rest))]
      rw [ih f rest hnfl (by simp) (by simp at hsz ⊢; omega)]
      simp [Except.map]

theorem round_obj (ms : List (String × Json)) (ih : RoundMembers ms) :
    RoundVal (Json.obj ms) := by
  intro fuel rest hnf hsz
  cases fuel with
  | zero => simp at hsz
  | succ f =>
    rw [printJson_obj]
    simp only [List.cons_append]
    rw [pVal_lbrace]
    cases ms with
    | nil =>
      simp only [printMembers_nil, List.nil_append, List.singleton_append]
      rw [skipWs_cons_of_not_ws _ _ (by decide)]
      simp
    | cons kv tail =>
      have hnfl : numFreeMembers (kv :: tail) = true := by
        rw [numFree_obj] at hnf
        exact hnf
      simp only [List.append_assoc, List.singleton_append]
      rw [skipWs_printMembers kv tail ('}' :: rest)]
      rw [if_neg (head?_printMembers_ne kv tail ('}' :: rest))]
      rw [ih f rest hnfl (by simp) (by simp at hsz ⊢; omega)]
      simp [Except.map]

theorem round_enil : RoundElems [] := by
  intro fuel rest _ hne _
  exact absurd rfl hne

theorem pElems_succ (f : Nat) (cs : List Char) :
    pElems (f + 1) cs = (pVal f cs).bind (fun vr =>
      let r' := skipWs vr.2
      if r'.head? = some ',' then
        (pElems f r'.tail).map fun (es, r3) => (vr.1 :: es, r3)
      else if r'.head? = some ']' then .ok ([vr.1], r'.tail)
      else .error "expected comma or closing bracket") := rfl

theorem round_econs (e : Json) (t : List Json) (ihe : RoundVal e) (iht : RoundElems t) :
    RoundElems (e :: t) := by
  intro fuel rest hnf _ hsz
  have hnfe : numFree e = true := by simp at hnf; exact hnf.1
  have hnft : numFreeList t = true := by simp at hnf; exact hnf.2
  cases fuel with
  | zero => simp at hsz
  | succ f =>
    rw [pElems_succ]
    cases t with
    | nil =>
      rw [printElems_single]
      rw [ihe f (']' :: rest) hnfe (by simp at hsz ⊢; omega)]
      simp only [Except.bind]
      rw [skipWs_cons_of_not_ws _ _ (by decide)]
      simp
    | cons e2 t2 =>
      rw [printElems_cons, List.append_assoc]
      simp only [List.cons_append]
      rw [ihe f _ hnfe (by simp at hsz ⊢; omega)]
      simp only [Except.bind]
      rw [skipWs_cons_of_not_ws _ _ (by decide)]
      simp only [List.head?_cons, List.tail_cons, Option.some.injEq, if_true]
      rw [iht f rest hnft (by simp) (by simp at hsz ⊢; omega)]
      simp [Except.map]

theorem round_mnil : RoundMembers [] := by
  intro fuel rest _ hne _
  exact absurd rfl hne

theorem pMembers_succ (f : Nat) (cs : List Char) :
    pMembers (f + 1) cs =
      (let cs' := skipWs cs
       if cs'.head? = some '"' then
         (pStrChars cs'.tail).bind fun (k, r1) =>
           let r1' := skipWs r1
           if r1'.head? = some ':' then
             (pVal f r1'.tail).bind fun (v, r3) =>
               let r3' := skipWs r3
               if r3'.head? = some ',' then
                 (pMembers f r3'.tail).map fun (ms, r5) => ((String.mk k, v) :: ms, r5)
               else if r3'.head? = some '}' then .ok ([(String.mk k, v)], r3'.tail)
               else .error "expected comma or closing brace"
           else .error "expected colon"
       else .error "expecting property name") := rfl

theorem round_mcons (kv : String × Json) (t : List (String × Json))
    (ihv : RoundVal kv.2) (iht : RoundMembers t) : RoundMembers (kv :: t) := by
  rcases kv with ⟨k, v⟩
  intro fuel rest hnf _ hsz
  have hnfv : numFree v = true := by simp at hnf; exact hnf.1
  have hnft : numFreeMembers t = true := by simp at hnf; exact hnf.2
  cases fuel with
  | zero => simp at hsz
  | succ f =>
    rw [pMembers_succ]
    cases t with
    | nil =>
      rw [printMembers_single, printStr_eq]
      simp only [List.cons_append, List.append_assoc, List.singleton_append,
        List.nil_append]
      rw [skipWs_cons_of_not_ws _ _ (by decide)]
      simp only [List.head?_cons, List.tail_cons, Option.some.injEq, if_true]
      rw [pStrChars_escape]
      simp only [Except.bind]
      rw [skipWs_cons_of_not_ws _ _ (by decide)]
      simp only [List.head?_cons, List.tail_cons, Option.some.injEq, if_true]
      rw [ihv f ('}' :: rest) hnfv (by simp at hsz ⊢; omega)]
      simp only [Except.bind]
      rw [skipWs_cons_of_not_ws _ _ (by decide)]
      simp [String.mk_toList]
    | cons kv2 t2 =>
      rw [printMembers_cons, printStr_eq]
      simp only [List.cons_append, List.append_assoc, List.singleton_append,
        List.nil_append]
      rw [skipWs_cons_of_not_ws _ _ (by decide)]
      simp only [List.head?_cons, List.tail_cons, Option.some.injEq, if_true]
      rw [pStrChars_escape]
      simp only [Except.bind]
      rw [skipWs_cons_of_not_ws _ _ (by decide)]
      simp only [List.head?_cons, List.tail_cons, Option.some.injEq, if_true]
      rw [ihv f _ hnfv (by simp at hsz ⊢; omega)]
      simp only [Except.bind]
      rw [skipWs_cons_of_not_ws _ _ (by decide)]
      simp only [List.head?_cons, List.tail_cons, Option.some.injEq, if_true]
      rw [iht f rest hnft (by simp) (by simp at hsz ⊢; omega)]
      simp [Except.map, String.mk_toList]

/-- Generic parse/print round-trip for number-free JSON values. -/
theorem pVal_roundtrip (v : Json) : RoundVal v :=
  @Json.rec RoundVal RoundElems RoundMembers (fun kv => RoundVal kv.2)
    round_null round_bool round_num round_str round_arr round_obj
    round_enil round_econs round_mnil round_mcons (fun _ _ ihv => ihv) v

/-- Size bound of one value against its printed length. -/
def BoundVal (v : Json) : Prop :=
  numFree v = true → jsize v ≤ (printJson v).length

/-- Size bound of an array body. -/
def BoundElems (es : List Json) : Prop :=
  numFreeList es = true → jsizeList es ≤ (printElems es).length + 1

/-- Size bound of an object body. -/
def BoundMembers (ms : List (String × Json)) : Prop :=
  numFreeMembers ms = true → jsizeMembers ms ≤ (printMembers ms).length + 1

theorem jsize_le_printLen (v : Json) : BoundVal v := by
  refine @Json.rec BoundVal BoundElems BoundMembers (fun kv => BoundVal kv.2)
    ?_ ?_ ?_ ?_ ?_ ?_ ?_ ?_ ?_ ?_ ?_ v
  · intro _; simp
  · intro b _
    cases b <;> simp
  · intro lx h; simp at h
  · intro s _
    simp [printStr_eq]
  · intro es ih h
    rw [numFree_arr] at h
    have := ih h
    simp
    omega
  · intro ms ih h
    rw [numFree_obj] at h
    have := ih h
    simp
    omega
  · intro _; simp
  · intro e t ihe iht h
    simp at h
    have h1 := ihe h.1
    have h2 := iht h.2
    cases t with
    | nil =>
      simp at h2 ⊢
      omega
    | cons e2 t2 =>
      rw [printElems_cons]
      simp at h2 ⊢
      omega
  · intro _; simp
  · intro kv t ihv iht h
    simp at h
    have h1 := ihv h.1
    have h2 := iht h.2
    rcases kv with ⟨k, v'⟩
    cases t with
    | nil =>
      rw [printMembers_single]
      simp at h1 ⊢
      omega
    | cons kv2 t2 =>
      rw [printMembers_cons]
      simp at h1 h2 ⊢
      omega
  · intro _ v' ihv
    exact ihv

/-- `json.loads` inverts `json.dumps` on number-free values. -/
theorem jsonLoads_dumps (v : Json) (h : numFree v = true) :
    jsonLoads (jsonDumps v) = .ok v := by
  unfold jsonLoads jsonDumps
  have hlen : (String.mk (printJson v)).length = (printJson v).length := rfl
  have hlist : (String.mk (printJson v)).toList = printJson v := rfl
  rw [hlen, hlist]
  have hb : jsize v ≤ (printJson v).length + 1 := by
    have := jsize_le_printLen v h
    omega
  have hr := pVal_roundtrip v ((printJson v).length + 1) [] h hb
  rw [List.append_nil] at hr
  rw [hr]
  rfl

theorem decodeColumn_encode (c : ColumnInfo) : decodeColumn (encodeColumn c) = some c := by
  rcases c with ⟨n, t, d⟩
  cases t <;> cases d <;> rfl

theorem decodeColumnList_encode (cols : List ColumnInfo) :
    decodeColumnList (cols.map encodeColumn) = some cols := by
  induction cols with
  | nil => rfl
  | cons c cs ih => simp [decodeColumnList, decodeColumn_encode, ih]

theorem decodeColumns_encode (cols : List ColumnInfo) :
    decodeColumns (encodeColumns cols) = some cols :=
  decodeColumnList_encode cols

theorem decodeTableList_encode (schemas : List (String × List ColumnInfo)) :
    decodeTableList (schemas.map (fun t => (t.1, encodeColumns t.2))) = some schemas := by
  induction schemas with
  | nil => rfl
  | cons t ts ih => simp [decodeTableList, decodeColumns_encode, ih]

theorem decodeStrs_encode (l : List String) : decodeStrs (l.map Json.str) = some l := by
  induction l with
  | nil => rfl
  | cons s ss ih => simp [decodeStrs, ih]

theorem numFree_encodeOptStr (o : Option String) : numFree (encodeOptStr o) = true := by
  cases o <;> simp [encodeOptStr]

theorem numFree_encodeColumn (c : ColumnInfo) : numFree (encodeColumn c) = true := by
  simp [encodeColumn, numFree_encodeOptStr]

theorem numFreeList_encodeColumns (cols : List ColumnInfo) :
    numFree (encodeColumns cols) = true := by
  rw [encodeColumns, numFree_arr]
  induction cols with
  | nil => rfl
  | cons c cs ih => simp [numFree_encodeColumn, ih]

theorem numFree_encodeTables (schemas : List (String × List ColumnInfo)) :
    numFree (encodeTables schemas) = true := by
  rw [encodeTables, numFree_obj]
  induction schemas with
  | nil => rfl
  | cons t ts ih => simp [numFreeList_encodeColumns, ih]

theorem numFree_encodeStrArr (l : List String) : numFree (encodeStrArr l) = true := by
  rw [encodeStrArr, numFree_arr]
  induction l with
  | nil => rfl
  | cons s ss ih => simp [ih]

theorem numFree_encodeRel (r : String × String × List String) :
    numFree (encodeRel r) = true := by
  have := numFree_encodeStrArr r.2.2
  simp [encodeRel, this]

theorem numFreeList_relArr (rs : List (String × String × List String)) :
    numFreeList (rs.map encodeRel) = true := by
  induction rs with
  | nil => rfl
  | cons r rest ih => simp [numFree_encodeRel, ih]

theorem numFree_snapshot (m : SchemaManager) (ts : String) :
    numFree (snapshotJson m ts) = true := by
  rw [snapshotJson, numFree_obj]
  simp [numFree_encodeTables, numFreeList_relArr, numFree_encodeStrArr]

/-- C8: saving a registry and loading the file into a fresh registry
reproduces the table→columns mapping exactly (column order within each
table preserved) and an extensionally identical shared-column set. -/
theorem claim_C8 (fs : FS) (m : SchemaManager) (path ts : String) :
    ∃ m2 : SchemaManager,
      SchemaManager.load_from_file ⟨[], []⟩ (m.save_to_file fs path ts) path =
        some (m2, true)
      ∧ m2._schemas = m._schemas
      ∧ (∀ c, c ∈ m2._shared_columns ↔ c ∈ m._shared_columns) := by
  refine ⟨⟨m._schemas, pySortedSet (pySortedSet m._shared_columns)⟩, ?_, rfl, ?_⟩
  · unfold SchemaManager.load_from_file SchemaManager.save_to_file
    rw [if_pos rfl]
    have ht : jLookup
        [("tables", encodeTables m._schemas),
         ("relationships", Json.arr ((relationshipRecords m._schemas).map encodeRel)),
         ("shared_columns", encodeStrArr (pySortedSet m._shared_columns)),
         ("generated_at", Json.str ts)] "tables" = some (encodeTables m._schemas) := rfl
    have hs : jLookup
        [("tables", encodeTables m._schemas),
         ("relationships", Json.arr ((relationshipRecords m._schemas).map encodeRel)),
         ("shared_columns", encodeStrArr (pySortedSet m._shared_columns)),
         ("generated_at", Json.str ts)] "shared_columns" =
          some (encodeStrArr (pySortedSet m._shared_columns)) := rfl
    have hdt : decodeTables (encodeTables m._schemas) = some m._schemas := by
      rw [encodeTables]
      exact decodeTableList_encode m._schemas
    have hds : decodeStrList (encodeStrArr (pySortedSet m._shared_columns)) =
        some (pySortedSet m._shared_columns) := by
      rw [encodeStrArr]
      exact decodeStrs_encode _
    simp only [jsonLoads_dumps _ (numFree_snapshot m ts)]
    simp only [snapshotJson, ht, hs, Option.getD_some, hdt, hds]
  · intro c
    unfold pySortedSet
    rw [mem_sortByKey, mem_dedupFirst, mem_sortByKey, mem_dedupFirst]

/-! ### Claims C9 and C10 -/

/-- C9 (amended): a temperature environment value that does not parse as a
Python float makes `Settings` construction fail at startup with an
invalid-format error; but a malformed memory-backend boolean does not
fail — any value other than case-insensitive `"true"` silently yields
`false` via the `.lower() == "true"` coercion; a well-formed environment
yields the documented defaults for every unset variable. -/
theorem claim_C9 (env : String → Option String) (tRaw bRaw : String)
    (ht : (env "AGENT_TEMPERATURE").getD "0.1" = tRaw)
    (hb : (env "USE_POSTGRES_MEMORY").getD "false" = bRaw) :
    (pyFloatParses tRaw = false →
      mkSettings env = .error ("could not convert string to float: " ++ tRaw))
  ∧ (pyFloatParses tRaw = true →
      ∃ s, mkSettings env = .ok s ∧ s.agent_temperature = tRaw
        ∧ s.use_postgres_memory = (pyLower bRaw == "true"))
  ∧ mkSettings (fun _ => none) = .ok defaultSettings := by
  refine ⟨?_, ?_, by rfl⟩
  · intro h
    simp only [mkSettings, ht, h]
    rfl
  · intro h
    refine ⟨{ ollama_host := (env "OLLAMA_HOST").getD "http://localhost:11434"
              supervisor_model := (env "OLLAMA_SUPERVISOR_MODEL").getD "ministral3:8b"
              coder_model := (env "OLLAMA_CODER_MODEL").getD "gpt-oss:120b-cloud"
              agent_temperature := tRaw
              data_dir := (env "DATA_DIR").getD "./data"
              duckdb_path := (env "DUCKDB_PATH").getD "./duckdb.db"
              schema_path := (env "SCHEMA_PATH").getD "./schema.json"
              memory_db_path := (env "MEMORY_DB_PATH").getD "./memory.db"
              use_postgres_memory := pyLower bRaw == "true" }, ?_, rfl, rfl⟩
    simp only [mkSettings, ht, hb, h]
    rfl

def envBadBool : String → Option String :=
  fun k => if k = "USE_POSTGRES_MEMORY" then some "banana" else none

def envBadTemp : String → Option String :=
  fun k => if k = "AGENT_TEMPERATURE" then some "abc" else none

/-- C9 witness: a malformed temperature fails construction; an empty
environment yields the defaults. -/
theorem claim_C9_witness :
    mkSettings envBadTemp = .error ("could not convert string to float: " ++ "abc")
  ∧ mkSettings (fun _ => none) = .ok defaultSettings :=
  ⟨(claim_C9 envBadTemp "abc" "false" rfl rfl).1 (by rfl),
   (claim_C9 (fun _ => none) "0.1" "false" rfl rfl).2.2⟩

/-- C9 counterexample: with the memory-backend flag set to the malformed
boolean `"banana"`, constructing the settings succeeds (silently treating
the flag as false); it does not fail with an invalid-format error as the
claim states. -/
theorem claim_C9_cex :
    mkSettings envBadBool = .ok defaultSettings
  ∧ (∀ e, mkSettings envBadBool ≠ .error e) := by
  refine ⟨by rfl, ?_⟩
  intro e he
  rw [show mkSettings envBadBool = Except.ok defaultSettings from by rfl] at he
  exact Except.noConfusion he

/-- C10 (amended): for every user id that neither contains `"__"` nor ends
with `"_"`, `parse_thread_id` inverts `make_thread_id` exactly; and two
distinct (user, thread) pairs can collide on the same namespaced key —
`("a__b", "t")` and `("a", "b__t")` both map to `"a__b__t"`, which parses
back to `("a", "b__t")`. -/
theorem claim_C10 (u t : String)
    (h1 : strContains u "__" = false)
    (h2 : endsWithUnderscore u.toList = false) :
    parse_thread_id (make_thread_id u t) = (u, t)
  ∧ make_thread_id "a__b" "t" = make_thread_id "a" "b__t"
  ∧ ("a__b", "t") ≠ (("a" : String), ("b__t" : String))
  ∧ parse_thread_id (make_thread_id "a__b" "t") = ("a", "b__t") :=
  ⟨parse_make_thread_id u t h1 h2, by rfl, by decide, by rfl⟩

/-- C10 witness: the round-trip at the concrete pair `("alice", "t1")`,
together with the concrete collision. -/
theorem claim_C10_witness :
    parse_thread_id (make_thread_id "alice" "t1") = ("alice", "t1")
  ∧ make_thread_id "a__b" "t" = make_thread_id "a" "b__t"
  ∧ ("a__b", "t") ≠ (("a" : String), ("b__t" : String))
  ∧ parse_thread_id (make_thread_id "a__b" "t") = ("a", "b__t") :=
  claim_C10 "alice" "t1" (by rfl) (by rfl)

/-- C10 counterexample: the user id `"a_"` does not contain `"__"`, yet the
round-trip fails — the claim's hypothesis ("does not contain `__`") is not
sufficient. -/
theorem claim_C10_cex :
    strContains "a_" "__" = false
  ∧ parse_thread_id (make_thread_id "a_" "x") = ("a", "_x")
  ∧ ("a", "_x") ≠ (("a_" : String), ("x" : String)) :=
  ⟨by rfl, by rfl, by decide⟩

/-! ### `src/graph.py` — the LangGraph workflow

The state machine is embedded as a fuelled step interpreter over the
`GraphState` record.  The external boundaries — both LLM agents and the
DuckDB layer (whose `db_manager` module only has callers in the
repository; its contract is spec §4.4) — are collected in an `Env` whose
fields give the outcome of each call, `.error` modelling a raised
exception.  The interpreter accumulates the visited nodes with their
post-states, and counts query-generation calls. -/

/-- A conversation message (human or assistant). -/
inductive Msg where
  | human (content : String)
  | ai (content : String)
deriving Repr, DecidableEq

/-- One record of `sub_results` (graph.py lines 407-411). -/
structure SubResult where
  sub_question : String
  query : Option String
  results : List Row
deriving Repr, DecidableEq

/-- Embedding of the `GraphState` TypedDict (graph.py lines 20-62). -/
structure GraphState where
  messages : List Msg
  question : String
  original_question : Option String
  schema_info : String
  query : Option String
  results : Option (List Row)
  answer : Option String
  error : Option String
  needs_query : Option Bool
  query_is_valid : Option Bool
  query_feedback : Option String
  retries : Option Nat
  is_complex : Option Bool
  sub_questions : Option (List String)
  current_sub_question_index : Option Nat
  sub_results : Option (List SubResult)
deriving Repr, DecidableEq

/-- Python truthiness of an optional string (`None` and `""` are falsy). -/
def strTruthy (o : Option String) : Bool := !(o.getD "").isEmpty

@[simp] theorem strTruthy_none : strTruthy none = false := rfl

@[simp] theorem strTruthy_some (s : String) : strTruthy (some s) = !s.isEmpty := rfl

/-- The record returned by `db.validate_schema`; the graph reads
`.get("valid", True)` and `.get("error", "")` (graph.py lines 291-294). -/
structure ValResult where
  valid : Option Bool
  error : Option String
deriving Repr, DecidableEq

/-- The parsed result of `detect_complexity` as the graph consumes it
(graph.py lines 341-351: `.get("is_complex", False)`,
`.get("original_question", ...)`, `.get("sub_questions", [])`). -/
structure ComplexityResult where
  is_complex : Bool
  sub_questions : List String
  original_question : Option String
  reasoning : String
deriving Repr, DecidableEq

/-- Outcomes of the external calls during one run.  `gen` is indexed by
the number of generation calls made before it (the prompt differs per
attempt); `validate` receives the state's current query. -/
structure Env where
  analyze : Except String String
  complexity : Except String ComplexityResult
  gen : Nat → Except String String
  validate : Option String → Except String ValResult
  runQuery : String → Except String (List Row)
  synth : Except String String
  aggregate : Except String String

/-- `self.max_retries` (graph.py line 89). -/
def max_retries : Nat := 3

/-- The `"NEED_QUERY" in analysis.upper()` test (graph.py line 123). -/
def needsQueryOf (analysis : String) : Bool :=
  strContains (pyUpper analysis) "NEED_QUERY"

/-- Embedding of `_supervisor_node` (graph.py lines 101-139). -/
def supervisor_node (env : Env) (s : GraphState) : GraphState :=
  match env.analyze with
  | .ok analysis =>
    if !needsQueryOf analysis then
      { s with answer := some analysis, needs_query := some false }
    else
      { s with needs_query := some true, retries := some 0 }
  | .error e =>
    { s with error := some ("Supervisor error: " ++ e), needs_query := some false }

/-- Embedding of `_coding_node` (graph.py lines 141-179); `genIdx` is the
number of generation calls made before this one. -/
def coding_node (env : Env) (genIdx : Nat) (s : GraphState) : GraphState :=
  match env.gen genIdx with
  | .ok query => { s with query := some query }
  | .error e =>
    { s with error := some ("Query generation error: " ++ e),
             retries := some (s.retries.getD 0 + 1) }

/-- Embedding of `_execute_node` (graph.py lines 181-212). -/
def execute_node (env : Env) (s : GraphState) : GraphState :=
  if strTruthy s.error then s
  else if !strTruthy s.query then { s with error := some "No query to execute" }
  else
    match env.runQuery (s.query.getD "") with
    | .ok results => { s with results := some results }
    | .error e => { s with error := some ("Query execution error: " ++ e) }

/-- Embedding of `_synthesize_node` (graph.py lines 214-250). -/
def synthesize_node (env : Env) (s : GraphState) : GraphState :=
  if strTruthy s.error then
    { s with answer := some ("I encountered an error: " ++ s.error.getD "") }
  else
    match env.synth with
    | .ok answer => { s with answer := some answer }
    | .error e =>
      { s with error := some ("Synthesis error: " ++ e),
               answer := some ("I encountered an error while synthesizing the answer: " ++ e) }

/-- Embedding of `_should_query` (graph.py lines 252-267). -/
def should_query (s : GraphState) : String :=
  if s.needs_query.getD false then "query" else "end"

/-- Embedding of `_verify_node` (graph.py lines 269-311). -/
def verify_node (env : Env) (s : GraphState) : GraphState :=
  if strTruthy s.error then
    { s with query_is_valid := some false,
             query_feedback := some (s.error.getD "Unknown error"),
             error := none }
  else
    match env.validate s.query with
    | .ok verification =>
      let valid := verification.valid.getD true
      let fb := verification.error.getD ""
      if !valid then
        { s with query_is_valid := some valid, query_feedback := some fb,
                 retries := some (s.retries.getD 0 + 1) }
      else
        { s with query_is_valid := some valid, query_feedback := some fb }
    | .error e =>
      { s with query_is_valid := some true,
               query_feedback := some ("Verification system error: " ++ e) }

/-- Embedding of `_check_verification` (graph.py lines 313-328). -/
def check_verification (s : GraphState) : String :=
  if s.query_is_valid.getD false then "execute"
  else if max_retries ≤ s.retries.getD 0 then "execute"
  else "retry_coding"

/-- Embedding of `_expansion_node` (graph.py lines 332-367). -/
def expansion_node (env : Env) (s : GraphState) : GraphState :=
  match env.complexity with
  | .ok result =>
    if result.is_complex then
      { s with is_complex := some result.is_complex,
               original_question := some (result.original_question.getD s.question),
               sub_questions := some result.sub_questions,
               current_sub_question_index := some 0,
               sub_results := some [] }
    else
      { s with is_complex := some result.is_complex,
               original_question := some (result.original_question.getD s.question) }
  | .error _ => { s with is_complex := some false }

/-- Embedding of `_sub_question_node` (graph.py lines 369-394). -/
def sub_question_node (s : GraphState) : GraphState :=
  let idx := s.current_sub_question_index.getD 0
  let sub_questions := s.sub_questions.getD []
  if h : idx < sub_questions.length then
    { s with question := sub_questions.get ⟨idx, h⟩
             query := none
             results := none
             query_is_valid := none
             query_feedback := none
             error := none
             retries := some 0 }
  else s

/-- Embedding of `_collect_result_node` (graph.py lines 396-422). -/
def collect_result_node (s : GraphState) : GraphState :=
  let idx := s.current_sub_question_index.getD 0
  let sub_questions := s.sub_questions.getD []
  if h : idx < sub_questions.length then
    { s with sub_results := some (s.sub_results.getD [] ++
               [{ sub_question := sub_questions.get ⟨idx, h⟩
                  query := s.query
                  results := s.results.getD [] }])
             current_sub_question_index := some (idx + 1) }
  else s

/-- Embedding of `_aggregation_node` (graph.py lines 424-453). -/
def aggregation_node (env : Env) (s : GraphState) : GraphState :=
  if (s.sub_results.getD []).isEmpty then
    { s with answer := some "No results to aggregate." }
  else
    match env.aggregate with
    | .ok answer => { s with answer := some answer }
    | .error e =>
      { s with error := some ("Aggregation error: " ++ e),
               answer := some ("I encountered an error while aggregating results: " ++ e) }

/-- Embedding of `_check_complexity` (graph.py lines 455-461). -/
def check_complexity (s : GraphState) : String :=
  if s.is_complex.getD false && !(s.sub_questions.getD []).isEmpty then "expand"
  else "simple"

/-- Embedding of the lambda routing after `execute`
(graph.py lines 543-544). -/
def execute_route (s : GraphState) : String :=
  if s.is_complex.getD false then "collect" else "synthesize"

/-- Embedding of `_has_more_sub_questions` (graph.py lines 463-473). -/
def has_more_sub_questions (s : GraphState) : String :=
  if s.current_sub_question_index.getD 0 < (s.sub_questions.getD []).length then "more"
  else "aggregate"

/-- The nodes of the compiled workflow (graph.py lines 492-500). -/
inductive Node where
  | supervisor
  | expansion
  | sub_question
  | coding
  | verify
  | execute
  | collect
  | aggregation
  | synthesize
deriving Repr, DecidableEq

/-- Outcome of a finished run: final state, visited nodes with their
post-states, and the number of query-generation calls made. -/
structure RunResult where
  state : GraphState
  trace : List (Node × GraphState)
  genCount : Nat
deriving Repr, DecidableEq

/-- One step per fuel unit through the graph of graph.py lines 476-568:
run the entered node's action, record it, and follow the (conditional)
edge.  `none` means the fuel ran out (the real graph's loops are bounded
by the retry ceiling, so ample fuel always suffices). -/
def exec (env : Env) : Nat → Node → GraphState → Nat → List (Node × GraphState) →
    Option RunResult
  | 0, _, _, _, _ => none
  | fuel + 1, n, s, g, tr =>
    match n with
    | .supervisor =>
      let s' := supervisor_node env s
      let tr' := tr ++ [(Node.supervisor, s')]
      if should_query s' = "query" then exec env fuel .expansion s' g tr'
      else some ⟨s', tr', g⟩
    | .expansion =>
      let s' := expansion_node env s
      let tr' := tr ++ [(Node.expansion, s')]
      if check_complexity s' = "expand" then exec env fuel .sub_question s' g tr'
      else exec env fuel .coding s' g tr'
    | .sub_question =>
      let s' := sub_question_node s
      exec env fuel .coding s' g (tr ++ [(Node.sub_question, s')])
    | .coding =>
      let s' := coding_node env g s
      exec env fuel .verify s' (g + 1) (tr ++ [(Node.coding, s')])
    | .verify =>
      let s' := verify_node env s
      let tr' := tr ++ [(Node.verify, s')]
      if check_verification s' = "execute" then exec env fuel .execute s' g tr'
      else exec env fuel .coding s' g tr'
    | .execute =>
      let s' := execute_node env s
      let tr' := tr ++ [(Node.execute, s')]
      if execute_route s' = "collect" then exec env fuel .collect s' g tr'
      else exec env fuel .synthesize s' g tr'
    | .collect =>
      let s' := collect_result_node s
      let tr' := tr ++ [(Node.collect, s')]
      if has_more_sub_questions s' = "more" then exec env fuel .sub_question s' g tr'
      else exec env fuel .aggregation s' g tr'
    | .aggregation =>
      let s' := aggregation_node env s
      some ⟨s', tr ++ [(Node.aggregation, s')], g⟩
    | .synthesize =>
      let s' := synthesize_node env s
      some ⟨s', tr ++ [(Node.synthesize, s')], g⟩

/-- The initial state built by `AgenticGraph.run` (graph.py lines
590-610). -/
def initialState (question schema_summary : String) : GraphState :=
  { messages := [Msg.human question]
    question := question
    original_question := some question
    schema_info := schema_summary
    query := none
    results := none
    answer := none
    error := none
    needs_query := none
    query_is_valid := none
    query_feedback := none
    retries := some 0
    is_complex := none
    sub_questions := none
    current_sub_question_index := some 0
    sub_results := none }

/-- Embedding of `AgenticGraph.run` (graph.py lines 570-625): execute the
graph from `supervisor` and append the answer as an assistant message when
one was produced. -/
def runGraph (env : Env) (question schema_summary : String) (fuel : Nat) :
    Option RunResult :=
  (exec env fuel .supervisor (initialState question schema_summary) 0 []).map fun r =>
    if strTruthy r.state.answer then
      { r with state := { r.state with
          messages := r.state.messages ++ [Msg.ai (r.state.answer.getD "")] } }
    else r

/-- The visited nodes of a run, in order. -/
def visited (r : RunResult) : List Node := r.trace.map Prod.fst

/-! ### Step lemmas for the graph interpreter -/

theorem exec_succ_supervisor (env : Env) (f : Nat) (s : GraphState) (g : Nat)
    (tr : List (Node × GraphState)) :
    exec env (f+1) .supervisor s g tr =
      (if should_query (supervisor_node env s) = "query" then
        exec env f .expansion (supervisor_node env s) g
          (tr ++ [(Node.supervisor, supervisor_node env s)])
      else some ⟨supervisor_node env s,
                 tr ++ [(Node.supervisor, supervisor_node env s)], g⟩) := rfl

theorem exec_succ_expansion (env : Env) (f : Nat) (s : GraphState) (g : Nat)
    (tr : List (Node × GraphState)) :
    exec env (f+1) .expansion s g tr =
      (if check_complexity (expansion_node env s) = "expand" then
        exec env f .sub_question (expansion_node env s) g
          (tr ++ [(Node.expansion, expansion_node env s)])
      else
        exec env f .coding (expansion_node env s) g
          (tr ++ [(Node.expansion, expansion_node env s)])) := rfl

theorem exec_succ_sub_question (env : Env) (f : Nat) (s : GraphState) (g : Nat)
    (tr : List (Node × GraphState)) :
    exec env (f+1) .sub_question s g tr =
      exec env f .coding (sub_question_node s) g
        (tr ++ [(Node.sub_question, sub_question_node s)]) := rfl

theorem exec_succ_coding (env : Env) (f : Nat) (s : GraphState) (g : Nat)
    (tr : List (Node × GraphState)) :
    exec env (f+1) .coding s g tr =
      exec env f .verify (coding_node env g s) (g + 1)
        (tr ++ [(Node.coding, coding_node env g s)]) := rfl

theorem exec_succ_verify (env : Env) (f : Nat) (s : GraphState) (g : Nat)
    (tr : List (Node × GraphState)) :
    exec env (f+1) .verify s g tr =
      (if check_verification (verify_node env s) = "execute" then
        exec env f .execute (verify_node env s) g
          (tr ++ [(Node.verify, verify_node env s)])
      else
        exec env f .coding (verify_node env s) g
          (tr ++ [(Node.verify, verify_node env s)])) := rfl

theorem exec_succ_execute (env : Env) (f : Nat) (s : GraphState) (g : Nat)
    (tr : List (Node × GraphState)) :
    exec env (f+1) .execute s g tr =
      (if execute_route (execute_node env s) = "collect" then
        exec env f .collect (execute_node env s) g
          (tr ++ [(Node.execute, execute_node env s)])
      else
        exec env f .synthesize (execute_node env s) g
          (tr ++ [(Node.execute, execute_node env s)])) := rfl

theorem exec_succ_collect (env : Env) (f : Nat) (s : GraphState) (g : Nat)
    (tr : List (Node × GraphState)) :
    exec env (f+1) .collect s g tr =
      (if has_more_sub_questions (collect_result_node s) = "more" then
        exec env f .sub_question (collect_result_node s) g
          (tr ++ [(Node.collect, collect_result_node s)])
      else
        exec env f .aggregation (collect_result_node s) g
          (tr ++ [(Node.collect, collect_result_node s)])) := rfl

theorem exec_succ_aggregation (env : Env) (f : Nat) (s : GraphState) (g : Nat)
    (tr : List (Node × GraphState)) :
    exec env (f+1) .aggregation s g tr =
      some ⟨aggregation_node env s,
            tr ++ [(Node.aggregation, aggregation_node env s)], g⟩ := rfl

theorem exec_succ_synthesize (env : Env) (f : Nat) (s : GraphState) (g : Nat)
    (tr : List (Node × GraphState)) :
    exec env (f+1) .synthesize s g tr =
      some ⟨synthesize_node env s,
            tr ++ [(Node.synthesize, synthesize_node env s)], g⟩ := rfl

/-! ### Claim C3 -/

/-- C3: whenever the supervisor's analysis reply, upper-cased, does not
contain `NEED_QUERY`, the run visits only the supervisor node, stores the
raw reply as the final answer, and makes no query-generation call; the
coding, verify and execute nodes are never reached. -/
theorem claim_C3 (env : Env) (q sc a : String) (fuel : Nat)
    (ha : env.analyze = .ok a)
    (hnq : needsQueryOf a = false)
    (hf : 1 ≤ fuel) :
    ∃ r, runGraph env q sc fuel = some r
      ∧ visited r = [Node.supervisor]
      ∧ r.state.answer = some a
      ∧ r.genCount = 0
      ∧ Node.coding ∉ visited r
      ∧ Node.verify ∉ visited r
      ∧ Node.execute ∉ visited r := by
  obtain ⟨f, rfl⟩ : ∃ f, fuel = f + 1 := ⟨fuel - 1, by omega⟩
  rw [runGraph, exec_succ_supervisor]
  simp only [supervisor_node, ha, hnq, Bool.not_false, if_true]
  simp only [should_query, Option.getD_some, Bool.false_eq_true, if_false, String.reduceEq,
    reduceIte, Option.map_some']
  split
  · exact ⟨_, rfl, by simp [visited], by simp, rfl, by simp [visited], by simp [visited],
      by simp [visited]⟩
  · exact ⟨_, rfl, by simp [visited], by simp, rfl, by simp [visited], by simp [visited],
      by simp [visited]⟩

/-- Concrete environment whose analysis reply lacks `NEED_QUERY`. -/
def envC3 : Env :=
  { analyze := .ok "The answer is 42."
    complexity := .ok ⟨false, [], none, ""⟩
    gen := fun _ => .ok "SELECT 1"
    validate := fun _ => .ok ⟨some true, some ""⟩
    runQuery := fun _ => .ok []
    synth := .ok "ans"
    aggregate := .ok "agg" }

/-- Witness for C3 at a concrete environment. -/
theorem claim_C3_witness :
    ∃ r, runGraph envC3 "hi" "sch" 5 = some r
      ∧ visited r = [Node.supervisor]
      ∧ r.state.answer = some "The answer is 42."
      ∧ r.genCount = 0
      ∧ Node.coding ∉ visited r
      ∧ Node.verify ∉ visited r
      ∧ Node.execute ∉ visited r :=
  claim_C3 envC3 "hi" "sch" "The answer is 42." 5 rfl rfl (by decide)

/-! ### Claim C1 -/

/-- C1 (amended): when structural validation fails on every generated
query (and the question is routed down the simple, non-complex path with
a generator that always returns a non-empty query), the workflow makes
exactly 3 query-generation attempts in total — the initial one plus
exactly 2 corrective regeneration attempts — with 3 validation attempts,
after which the verify step forces the transition to execute regardless
of the final validation outcome, and then synthesize runs; the retry
counter ends at 3 and never exceeds 3 at any point of the run.  (The
spec's "exactly 3 corrective attempts" / "the 4th validation outcome"
figures are off by one: `_verify_node` increments the counter on every
failed validation and `_check_verification` gives up as soon as it
reaches 3, so only 2 regenerations and 3 validations ever happen.) -/
theorem claim_C1 (env : Env) (q sc a ans : String) (cr : ComplexityResult)
    (sqls : Nat → String) (fb : Option String → String) (rows : String → List Row)
    (fuel : Nat)
    (ha : env.analyze = .ok a)
    (hnq : needsQueryOf a = true)
    (hc : env.complexity = .ok cr)
    (hcx : cr.is_complex = false)
    (hgen : ∀ k, env.gen k = .ok (sqls k))
    (hsql : ∀ k, (sqls k).isEmpty = false)
    (hval : ∀ o, env.validate o = .ok ⟨some false, some (fb o)⟩)
    (hrun : ∀ s, env.runQuery s = .ok (rows s))
    (hsynth : env.synth = .ok ans)
    (hf : 10 ≤ fuel) :
    ∃ r, runGraph env q sc fuel = some r
      ∧ visited r = [Node.supervisor, Node.expansion, Node.coding, Node.verify,
          Node.coding, Node.verify, Node.coding, Node.verify, Node.execute, Node.synthesize]
      ∧ r.genCount = 3
      ∧ r.state.retries = some 3
      ∧ r.trace.map (fun p => p.2.retries) =
          [some 0, some 0, some 0, some 1, some 1, some 2, some 2, some 3, some 3, some 3]
      ∧ r.trace.all (fun p => decide (p.2.retries.getD 0 ≤ 3)) = true := by
  obtain ⟨f, rfl⟩ : ∃ f, fuel = f + 10 := ⟨fuel - 10, by omega⟩
  rw [runGraph]
  simp only [exec_succ_supervisor, exec_succ_expansion, exec_succ_coding, exec_succ_verify,
    exec_succ_execute, exec_succ_synthesize,
    supervisor_node, expansion_node, coding_node, verify_node, execute_node, synthesize_node,
    should_query, check_complexity, check_verification, execute_route, max_retries,
    initialState,
    ha, hnq, hc, hcx, hgen, hval, hrun, hsynth, hsql,
    Option.getD_some, Option.getD_none, strTruthy_none, strTruthy_some,
    Bool.not_true, Bool.not_false, Bool.not_not, Bool.false_eq_true, Bool.false_and,
    Bool.true_and, Bool.and_false, Bool.and_true,
    Nat.reduceAdd, Nat.reduceLeDiff, String.reduceEq, reduceIte, if_true, if_false,
    Option.map_some']
  split
  · exact ⟨_, rfl, by simp [visited], by simp, by simp, by simp, by simp⟩
  · exact ⟨_, rfl, by simp [visited], by simp, by simp, by simp, by simp⟩

/-- A concrete environment whose validation verdict is always invalid. -/
def envC1 : Env :=
  { analyze := .ok "NEED_QUERY"
    complexity := .ok ⟨false, [], none, ""⟩
    gen := fun _ => .ok "SELECT 1"
    validate := fun _ => .ok ⟨some false, some "bad"⟩
    runQuery := fun _ => .ok []
    synth := .ok "ans"
    aggregate := .ok "agg" }

/-- Witness for C1 at a concrete always-invalid environment. -/
theorem claim_C1_witness :
    ∃ r, runGraph envC1 "q" "s" 12 = some r
      ∧ visited r = [Node.supervisor, Node.expansion, Node.coding, Node.verify,
          Node.coding, Node.verify, Node.coding, Node.verify, Node.execute, Node.synthesize]
      ∧ r.genCount = 3
      ∧ r.state.retries = some 3
      ∧ r.trace.map (fun p => p.2.retries) =
          [some 0, some 0, some 0, some 1, some 1, some 2, some 2, some 3, some 3, some 3]
      ∧ r.trace.all (fun p => decide (p.2.retries.getD 0 ≤ 3)) = true :=
  claim_C1 envC1 "q" "s" "NEED_QUERY" "ans" ⟨false, [], none, ""⟩
    (fun _ => "SELECT 1") (fun _ => "bad") (fun _ => []) 12
    rfl rfl rfl rfl (fun _ => rfl) (fun _ => rfl) (fun _ => rfl) (fun _ => rfl) rfl
    (by decide)

/-- Counterexample to C1 as stated: with validation failing on every
attempt, the run makes 3 total generation attempts (so 2 corrective
regenerations, not 3) and only 3 validation attempts (there is no 4th
validation outcome). -/
theorem claim_C1_cex :
    ∃ r, runGraph envC1 "q" "s" 12 = some r
      ∧ r.genCount = 3
      ∧ (visited r).count Node.coding = 3
      ∧ (visited r).count Node.verify = 3
      ∧ r.genCount - 1 = 2
      ∧ ¬ r.genCount - 1 = 3 := by
  refine ⟨_, rfl, rfl, ?_, ?_, rfl, by decide⟩
  · rfl
  · rfl

/-! ### Claim C2 -/

/-- C2: with complexity detection returning is-complex with exactly two
sub-questions (and generation, validation, execution and aggregation all
succeeding — a full cycle), the run performs exactly two
generate→verify→execute→collect cycles, one per sub-question: before each
cycle the question is set to the queued sub-question while query, results,
verification flag/feedback, error and retry counter are all reset, and
aggregation then runs exactly once over the two collected results.  With
complexity detection returning not-complex, collect and aggregation are
never visited and the answer comes from the single synthesize step. -/
theorem claim_C2 (env : Env) (q sc a agg ans q1 q2 : String) (cr : ComplexityResult)
    (sqls : Nat → String) (fb : Option String → String) (rows : String → List Row)
    (fuel : Nat)
    (ha : env.analyze = .ok a)
    (hnq : needsQueryOf a = true)
    (hc : env.complexity = .ok cr)
    (hgen : ∀ k, env.gen k = .ok (sqls k))
    (hsql : ∀ k, (sqls k).isEmpty = false)
    (hval : ∀ o, env.validate o = .ok ⟨some true, some (fb o)⟩)
    (hrun : ∀ s, env.runQuery s = .ok (rows s))
    (hagg : env.aggregate = .ok agg)
    (hsynth : env.synth = .ok ans)
    (hf : 13 ≤ fuel) :
    (cr.is_complex = true → cr.sub_questions = [q1, q2] →
      ∃ r, runGraph env q sc fuel = some r
        ∧ visited r = [Node.supervisor, Node.expansion, Node.sub_question, Node.coding,
            Node.verify, Node.execute, Node.collect, Node.sub_question, Node.coding,
            Node.verify, Node.execute, Node.collect, Node.aggregation]
        ∧ r.genCount = 2
        ∧ r.state.sub_results = some
            [⟨q1, some (sqls 0), rows (sqls 0)⟩, ⟨q2, some (sqls 1), rows (sqls 1)⟩]
        ∧ r.state.answer = some agg
        ∧ r.trace.map (fun p => p.2.question) =
            [q, q, q1, q1, q1, q1, q1, q2, q2, q2, q2, q2, q2]
        ∧ r.trace.map (fun p => p.2.query) =
            [none, none, none, some (sqls 0), some (sqls 0), some (sqls 0), some (sqls 0),
             none, some (sqls 1), some (sqls 1), some (sqls 1), some (sqls 1), some (sqls 1)]
        ∧ r.trace.map (fun p => p.2.results) =
            [none, none, none, none, none, some (rows (sqls 0)), some (rows (sqls 0)),
             none, none, none, some (rows (sqls 1)), some (rows (sqls 1)),
             some (rows (sqls 1))]
        ∧ r.trace.map (fun p => p.2.query_is_valid) =
            [none, none, none, none, some true, some true, some true,
             none, none, some true, some true, some true, some true]
        ∧ r.trace.map (fun p => p.2.error) =
            [none, none, none, none, none, none, none, none, none, none, none, none, none]
        ∧ r.trace.map (fun p => p.2.retries) =
            [some 0, some 0, some 0, some 0, some 0, some 0, some 0,
             some 0, some 0, some 0, some 0, some 0, some 0]
        ∧ (visited r).count Node.aggregation = 1
        ∧ Node.synthesize ∉ visited r)
    ∧ (cr.is_complex = false →
      ∃ r, runGraph env q sc fuel = some r
        ∧ visited r = [Node.supervisor, Node.expansion, Node.coding, Node.verify,
            Node.execute, Node.synthesize]
        ∧ r.genCount = 1
        ∧ r.state.answer = some ans
        ∧ Node.collect ∉ visited r
        ∧ Node.aggregation ∉ visited r
        ∧ (visited r).count Node.synthesize = 1) := by
  constructor
  · intro hcx hsub
    obtain ⟨f, rfl⟩ : ∃ f, fuel = f + 13 := ⟨fuel - 13, by omega⟩
    rw [runGraph]
    simp only [exec_succ_supervisor, exec_succ_expansion, exec_succ_sub_question,
      exec_succ_coding, exec_succ_verify, exec_succ_execute, exec_succ_collect,
      exec_succ_aggregation,
      supervisor_node, expansion_node, sub_question_node, coding_node, verify_node,
      execute_node, collect_result_node, aggregation_node,
      should_query, check_complexity, check_verification, execute_route,
      has_more_sub_questions, max_retries, initialState,
      ha, hnq, hc, hcx, hsub, hgen, hval, hrun, hagg, hsql,
      Option.getD_some, Option.getD_none, strTruthy_none, strTruthy_some,
      Bool.not_true, Bool.not_false, Bool.not_not, Bool.false_eq_true, Bool.false_and,
      Bool.true_and, Bool.and_false, Bool.and_true,
      List.isEmpty_cons, List.isEmpty_nil, List.length_cons, List.length_nil,
      List.get_cons_zero, List.get_cons_succ, List.nil_append, List.append_nil,
      List.cons_append, List.singleton_append,
      Nat.reduceAdd, Nat.reduceLeDiff, Nat.reduceLT, String.reduceEq, reduceIte, reduceDIte,
      if_true, if_false, Option.map_some']
    split
    · exact ⟨_, rfl, by simp [visited], by simp, by simp, by simp, by simp, by simp, by simp,
        by simp, by simp, by simp, by simp [visited], by simp [visited]⟩
    · exact ⟨_, rfl, by simp [visited], by simp, by simp, by simp, by simp, by simp, by simp,
        by simp, by simp, by simp, by simp [visited], by simp [visited]⟩
  · intro hcx
    obtain ⟨f, rfl⟩ : ∃ f, fuel = f + 13 := ⟨fuel - 13, by omega⟩
    rw [runGraph]
    simp only [exec_succ_supervisor, exec_succ_expansion, exec_succ_coding, exec_succ_verify,
      exec_succ_execute, exec_succ_synthesize,
      supervisor_node, expansion_node, coding_node, verify_node, execute_node, synthesize_node,
      should_query, check_complexity, check_verification, execute_route, max_retries,
      initialState,
      ha, hnq, hc, hcx, hgen, hval, hrun, hsynth, hsql,
      Option.getD_some, Option.getD_none, strTruthy_none, strTruthy_some,
      Bool.not_true, Bool.not_false, Bool.not_not, Bool.false_eq_true, Bool.false_and,
      Bool.true_and, Bool.and_false, Bool.and_true,
      Nat.reduceAdd, Nat.reduceLeDiff, String.reduceEq, reduceIte, if_true, if_false,
      Option.map_some']
    split
    · exact ⟨_, rfl, by simp [visited], by simp, by simp, by simp [visited],
        by simp [visited], by simp [visited]⟩
    · exact ⟨_, rfl, by simp [visited], by simp, by simp, by simp [visited],
        by simp [visited], by simp [visited]⟩

/-- Concrete environment whose complexity verdict is complex with two
sub-questions and whose validation always approves. -/
def envC2 : Env :=
  { analyze := .ok "NEED_QUERY"
    complexity := .ok ⟨true, ["s1", "s2"], none, ""⟩
    gen := fun _ => .ok "SELECT 1"
    validate := fun _ => .ok ⟨some true, some ""⟩
    runQuery := fun _ => .ok []
    synth := .ok "ans"
    aggregate := .ok "agg" }

/-- Like `envC2` but with a not-complex complexity verdict. -/
def envC2s : Env :=
  { envC2 with complexity := .ok ⟨false, [], none, ""⟩ }

/-- Witness for C2: the complex arm at `envC2` and the simple arm at
`envC2s`. -/
theorem claim_C2_witness :
    (∃ r, runGraph envC2 "q" "s" 13 = some r
      ∧ visited r = [Node.supervisor, Node.expansion, Node.sub_question, Node.coding,
          Node.verify, Node.execute, Node.collect, Node.sub_question, Node.coding,
          Node.verify, Node.execute, Node.collect, Node.aggregation]
      ∧ r.genCount = 2
      ∧ r.state.sub_results = some
          [⟨"s1", some "SELECT 1", []⟩, ⟨"s2", some "SELECT 1", []⟩]
      ∧ r.state.answer = some "agg")
    ∧ (∃ r, runGraph envC2s "q" "s" 13 = some r
      ∧ visited r = [Node.supervisor, Node.expansion, Node.coding, Node.verify,
          Node.execute, Node.synthesize]
      ∧ r.genCount = 1
      ∧ r.state.answer = some "ans"
      ∧ Node.collect ∉ visited r
      ∧ Node.aggregation ∉ visited r) := by
  constructor
  · obtain ⟨r, h1, h2, h3, h4, h5, -⟩ :=
      (claim_C2 envC2 "q" "s" "NEED_QUERY" "agg" "ans" "s1" "s2" ⟨true, ["s1", "s2"], none, ""⟩
        (fun _ => "SELECT 1") (fun _ => "") (fun _ => []) 13
        rfl rfl rfl (fun _ => rfl) (fun _ => rfl) (fun _ => rfl) (fun _ => rfl) rfl rfl
        (by decide)).1 rfl rfl
    exact ⟨r, h1, h2, h3, h4, h5⟩
  · obtain ⟨r, h1, h2, h3, h4, h5, h6, -⟩ :=
      (claim_C2 envC2s "q" "s" "NEED_QUERY" "agg" "ans" "s1" "s2" ⟨false, [], none, ""⟩
        (fun _ => "SELECT 1") (fun _ => "") (fun _ => []) 13
        rfl rfl rfl (fun _ => rfl) (fun _ => rfl) (fun _ => rfl) (fun _ => rfl) rfl rfl
        (by decide)).2 rfl
    exact ⟨r, h1, h2, h3, h4, h5, h6⟩
